import Mathlib

/-!
Verification of the blok-mcp session/authentication core and tool dispatcher.

Shallow embedding of:
  - `src/blok_mcp/client/api_client.py`   (BlokAPIClient)
  - `src/blok_mcp/auth/authenticator.py`  (BlokAuthenticator)
  - `src/blok_mcp/auth/session.py`        (SessionManager)
  - `src/blok_mcp/mcp_server.py`          (BlokMCPServer tool handlers)

Modelling conventions:
  - JSON values are modelled by `JVal`; JSON numbers are modelled as integers
    (no tool-relevant logic depends on fractional values).
  - The network is an oracle: a pure function from requests to responses,
    supplied as a parameter.  2xx responses deliver a parsed `JVal` body;
    non-2xx responses deliver the status code together with the string value
    of the JSON body field "detail" when the body is parseable (and `none`
    otherwise); transport failures deliver an error message.
  - Python exceptions are modelled by `Except PyErr`; the message text of
    Python runtime type errors (AttributeError/TypeError/IndexError raised by
    ill-shaped backend data) is abstracted, every other message is the exact
    source text.
  - Each `BlokAPIClient` carries a ghost identifier `id` modelling Python
    object identity, so that the open/closed state of the underlying
    `httpx.AsyncClient` connection resource of every client ever created can
    be tracked (`SMState.closedIds`).
  - Python string methods (`strip`, `lower`, `title`, `split`,
    `startswith`, slicing) are modelled by the kernel-computable
    character-level functions below, over ASCII whitespace.
-/

/-- Single-quote character as a string (used when reproducing Python message
text verbatim). -/
def pySq : String := (Char.ofNat 39).toString

/-- Repetition of a character, modelling Python `c * n` string repetition. -/
def charLine (c : Char) (n : Nat) : String := String.mk (List.replicate n c)

/-- Python `s.lstrip("/")`: remove every leading slash. -/
def lstripSlash (s : String) : String := String.mk (s.toList.dropWhile (· == '/'))

/-- Python `s.rstrip("/")`: remove every trailing slash. -/
def rstripSlash (s : String) : String :=
  String.mk ((s.toList.reverse.dropWhile (· == '/')).reverse)

/-- Python `s[:n]` character slice. -/
def strSliceTo (s : String) (n : Nat) : String := String.mk (s.toList.take n)

/-- Python `s.startswith(pre)` (character-level, kernel-computable). -/
def strStartsWith (s pre : String) : Bool := pre.toList.isPrefixOf s.toList

/-- Python `s.strip()`: remove leading and trailing whitespace
(character-level, kernel-computable). -/
def pyStrip (s : String) : String :=
  String.mk (((s.toList.dropWhile Char.isWhitespace).reverse.dropWhile
    Char.isWhitespace).reverse)

/-- Python `s.lower()`. -/
def strToLower (s : String) : String := String.mk (s.toList.map Char.toLower)

/-- Helper for whitespace splitting: accumulate the current word reversed. -/
def wordsAux : List Char → List Char → List String
  | [], [] => []
  | [], acc => [String.mk acc.reverse]
  | c :: cs, acc =>
    if c.isWhitespace then
      match acc with
      | [] => wordsAux cs []
      | _ => String.mk acc.reverse :: wordsAux cs []
    else wordsAux cs (c :: acc)

/-- Helper for separator splitting: accumulate the current piece reversed. -/
def splitOnCharAux (sep : Char) : List Char → List Char → List String
  | [], acc => [String.mk acc.reverse]
  | c :: cs, acc =>
    if c = sep then String.mk acc.reverse :: splitOnCharAux sep cs []
    else splitOnCharAux sep cs (c :: acc)

/-- Python `s.split(sep)` for a one-character separator. -/
def splitOnChar (sep : Char) (s : String) : List String := splitOnCharAux sep s.toList []

/-- Python `str.split()` with no separator: split on runs of whitespace,
discarding empty pieces. -/
def pySplitWs (s : String) : List String := wordsAux s.toList []

/-- Title-case a character list, tracking whether the previous character was
alphabetic (Python `str.title()` semantics). -/
def titleChars : List Char → Bool → List Char
  | [], _ => []
  | c :: cs, prevAlpha =>
    let c2 := if c.isAlpha then (if prevAlpha then c.toLower else c.toUpper) else c
    c2 :: titleChars cs c.isAlpha

/-- Python `str.title()`. -/
def pyTitle (s : String) : String := String.mk (titleChars s.toList false)

/-- Containment of one character list in another. -/
def listContains : List Char → List Char → Bool
  | _, [] => true
  | [], _ => false
  | c :: cs, pat => (pat.isPrefixOf (c :: cs)) || listContains cs pat

/-- Python `pat in s` substring test. -/
def strContains (s pat : String) : Bool := listContains s.toList pat.toList

/-- JSON values as delivered by the backend (numbers restricted to integers). -/
inductive JVal where
  | null : JVal
  | b : Bool → JVal
  | i : Int → JVal
  | s : String → JVal
  | arr : List JVal → JVal
  | obj : List (String × JVal) → JVal

instance : Inhabited JVal := ⟨JVal.null⟩

mutual

/-- Structural equality of JSON values (the equality Python `==` applies on
the comparisons the handlers perform). -/
def JVal.beq : JVal → JVal → Bool
  | .null, .null => true
  | .b x, .b y => x == y
  | .i x, .i y => x == y
  | .s x, .s y => x == y
  | .arr xs, .arr ys => beqJList xs ys
  | .obj xs, .obj ys => beqJObj xs ys
  | _, _ => false

/-- Elementwise equality of JSON lists. -/
def beqJList : List JVal → List JVal → Bool
  | [], [] => true
  | x :: xs, y :: ys => JVal.beq x y && beqJList xs ys
  | _, _ => false

/-- Fieldwise equality of JSON objects. -/
def beqJObj : List (String × JVal) → List (String × JVal) → Bool
  | [], [] => true
  | (k1, v1) :: xs, (k2, v2) :: ys => k1 == k2 && JVal.beq v1 v2 && beqJObj xs ys
  | _, _ => false

end

instance : BEq JVal := ⟨JVal.beq⟩

/-- Python truthiness of a JSON value. -/
def JVal.truthy : JVal → Bool
  | .null => false
  | .b v => v
  | .i n => n ≠ 0
  | .s v => v ≠ ""
  | .arr l => !l.isEmpty
  | .obj l => !l.isEmpty

/-- First binding of a key in an association list (Python dicts never hold
duplicate keys, so association lists here are assumed duplicate-free). -/
def alookup : List (String × JVal) → String → Option JVal
  | [], _ => none
  | (k, v) :: kvs, key => if k = key then some v else alookup kvs key

mutual

/-- Python `repr` of a JSON value (element rendering inside containers); the
source never shows container values to users on any specified path, so the
quoting of nested strings is rendered with double quotes. -/
def JVal.pyRepr : JVal → String
  | .null => "None"
  | .b true => "True"
  | .b false => "False"
  | .i n => toString n
  | .s v => "\"" ++ v ++ "\""
  | .arr l => "[" ++ pyReprList l ++ "]"
  | .obj kvs => "\x7b" ++ pyReprObj kvs ++ "\x7d"

/-- Comma-joined `repr` list. -/
def pyReprList : List JVal → String
  | [] => ""
  | [x] => x.pyRepr
  | x :: y :: xs => x.pyRepr ++ ", " ++ pyReprList (y :: xs)

/-- Comma-joined `repr` of object fields. -/
def pyReprObj : List (String × JVal) → String
  | [] => ""
  | [(k, v)] => "\"" ++ k ++ "\": " ++ v.pyRepr
  | (k, v) :: y :: xs => "\"" ++ k ++ "\": " ++ v.pyRepr ++ ", " ++ pyReprObj (y :: xs)

end

/-- Python `str(v)` of a JSON value: strings render bare, containers via repr. -/
def JVal.pyStr : JVal → String
  | .s v => v
  | v => v.pyRepr

/-- Python exceptions that can cross the handlers: typed errors carry the
exact source message; `ty` abstracts the message of runtime type errors on
ill-shaped data. -/
inductive PyErr where
  | api : String → PyErr
  | auth : String → PyErr
  | runtime : String → PyErr
  | value : String → PyErr
  | ty : String → PyErr
deriving Repr, DecidableEq

/-- Python `str(e)` of a modelled exception. -/
def PyErr.msg : PyErr → String
  | .api m => m
  | .auth m => m
  | .runtime m => m
  | .value m => m
  | .ty m => m

/-- Python `d.get(k, default)` on a JSON value; raises (AttributeError) when
the receiver is not a dict. -/
def pyGetD (v : JVal) (k : String) (d : JVal) : Except PyErr JVal :=
  match v with
  | .obj kvs => .ok ((alookup kvs k).getD d)
  | _ => .error (.ty "object has no attribute get")

/-- Python `d.get(k)` (default None). -/
def pyGet (v : JVal) (k : String) : Except PyErr JVal := pyGetD v k .null

/-- Python `len(v)`; raises on values without a length. -/
def pyLen (v : JVal) : Except PyErr Nat :=
  match v with
  | .s t => .ok t.length
  | .arr l => .ok l.length
  | .obj l => .ok l.length
  | _ => .error (.ty "object has no len")

/-- Python iteration `for x in v`: lists yield items, dicts yield keys,
strings yield characters; other values raise. -/
def pyIter (v : JVal) : Except PyErr (List JVal) :=
  match v with
  | .arr l => .ok l
  | .obj kvs => .ok (kvs.map (fun kv => .s kv.1))
  | .s t => .ok (t.toList.map (fun c => .s c.toString))
  | _ => .error (.ty "object is not iterable")

/-- Membership `x in v` for list containers (Python equality restricted to
structural equality of JSON values). -/
def pyIn (x : JVal) (v : JVal) : Except PyErr Bool :=
  match v with
  | .arr l => .ok (l.contains x)
  | .s t => match x with
    | .s p => .ok (strContains t p)
    | _ => .error (.ty "requires string as left operand)")
  | .obj kvs => .ok ((kvs.map (fun kv => JVal.s kv.1)).contains x)
  | _ => .error (.ty "argument is not iterable")

/-- Expect a string-valued JSON value (paths where Python would apply a string
method to the value and raise otherwise). -/
def pyAsStr (v : JVal) : Except PyErr String :=
  match v with
  | .s t => .ok t
  | _ => .error (.ty "object is not a str")

/-- One MCP text content block (`TextContent(type="text", text=...)`). -/
structure TextContent where
  text : String
deriving Repr, DecidableEq

/-- Token bundle returned by `BlokAuthenticator.authenticate` on success. -/
structure TokenInfo where
  access_token : String
  refresh_token : String
  email : String
  user_id : String
  tenant_id : String
deriving Repr, DecidableEq

/-- AuthenticationError carrying its message. -/
structure AuthErr where
  msg : String
deriving Repr, DecidableEq

/-- Outcome of the `POST <base>/api/v1/auth/signin` call as seen through
httpx: a 2xx response with its parsed JSON body fields (string-valued fields
modelled directly, absent keys as `none`), a non-2xx status with the string
value of the JSON body field "detail" when the error body is parseable, or a
transport failure. -/
inductive SigninResp where
  | ok : Option String → Option String → Option String → Option String → Option String → SigninResp
  | stat : Nat → Option String → SigninResp
  | net : String → SigninResp
deriving Repr, DecidableEq

/-- Signin backend oracle: credentials to response. -/
def SigninOracle : Type := String → String → SigninResp

/-- BlokAuthenticator.authenticate (authenticator.py lines 23-82): exchange
credentials for a token bundle, translating failures into
AuthenticationError exactly as the source does. -/
def BlokAuthenticator.authenticate (signin : SigninOracle) (email password : String) :
    Except AuthErr TokenInfo :=
  match signin email password with
  | .ok tok rt em uid tid =>
    match tok with
    | some t =>
      if t = "" then
        .error ⟨"No access token in response"⟩
      else
        .ok ⟨t, rt.getD "", em.getD email, uid.getD "", tid.getD ""⟩
    | none => .error ⟨"No access token in response"⟩
  | .stat code detail =>
    let base := "Authentication failed"
    let enriched :=
      match detail with
      | some d => if d ≠ "" then base ++ ": " ++ d else base
      | none => base
    if code = 401 then .error ⟨"Invalid email or password"⟩
    else if code = 404 then .error ⟨"User not found"⟩
    else .error ⟨enriched⟩
  | .net m => .error ⟨"Network error during authentication: " ++ m⟩

/-- BlokAPIClient (api_client.py lines 12-26): bearer token, base URL with
trailing slashes removed at construction, plus a ghost identity `id` for
tracking the openness of the underlying httpx connection resource. -/
structure BlokAPIClient where
  id : Nat
  access_token : String
  base_url : String
deriving Repr, DecidableEq

/-- BlokAPIClient._build_url (api_client.py lines 28-44). -/
def BlokAPIClient.build_url (base_url path : String) : String :=
  let p := lstripSlash path
  let p2 := if strStartsWith p "api/v1/" then p else "api/v1/" ++ p
  base_url ++ "/" ++ p2

/-- Python `dict.update`: existing keys are overwritten in place, new keys
appended in order (extra header dicts assumed duplicate-free). -/
def dictUpdate (base extra : List (String × String)) : List (String × String) :=
  base.map (fun kv => (kv.1, ((extra.find? (fun e => e.1 = kv.1)).map (·.2)).getD kv.2)) ++
    extra.filter (fun e => base.all (fun kv => kv.1 ≠ e.1))

/-- BlokAPIClient._get_headers (api_client.py lines 46-63). -/
def BlokAPIClient.get_headers (access_token : String)
    (extra : Option (List (String × String))) : List (String × String) :=
  let headers := [("Authorization", "Bearer " ++ access_token),
                  ("Content-Type", "application/json")]
  match extra with
  | some ex => dictUpdate headers ex
  | none => headers

/-- SessionState dataclass (session.py lines 10-18). -/
structure SessionState where
  access_token : String
  refresh_token : String
  email : String
  user_id : String
  tenant_id : String
deriving Repr, DecidableEq

/-- SessionManager state (session.py lines 21-33): stored session and current
client, plus ghost resource-tracking fields: `nextId` counts the clients ever
constructed (each construction opens an httpx.AsyncClient) and `closedIds`
lists the ones whose `aclose` ran. -/
structure SMState where
  blok_api_url : String
  session : Option SessionState
  client : Option BlokAPIClient
  nextId : Nat
  closedIds : List Nat
deriving Repr, DecidableEq

/-- SessionManager.__init__ (session.py lines 24-33). -/
def SessionManager.init (blok_api_url : String) : SMState :=
  ⟨blok_api_url, none, none, 0, []⟩

/-- Construction `BlokAPIClient(access_token=..., base_url=self.blok_api_url)`:
opens a fresh connection resource (fresh ghost id). -/
def SMState.newClient (st : SMState) (access_token : String) : BlokAPIClient × SMState :=
  (⟨st.nextId, access_token, rstripSlash st.blok_api_url⟩,
   { st with nextId := st.nextId + 1 })

/-- Ghost count of clients created and never closed (leaked or current). -/
def SMState.liveClients (st : SMState) : Nat :=
  ((List.range st.nextId).filter (fun i => !st.closedIds.contains i)).length

/-- SessionManager.is_authenticated (session.py lines 35-38). -/
def SessionManager.is_authenticated (st : SMState) : Bool := st.session.isSome

/-- SessionManager.set_token (session.py lines 56-82): drops any existing
client reference without closing it (the source comment notes it cannot
close the async client synchronously), installs the session, and constructs
a new client bound to the new token. -/
def SessionManager.set_token (st : SMState) (access_token : String)
    (email : String := "") (user_id : String := "") (tenant_id : String := "") : SMState :=
  let st1 := { st with client := none }
  let sess : SessionState := ⟨access_token, "", email, user_id, tenant_id⟩
  let st2 := { st1 with session := some sess }
  let (c, st3) := st2.newClient sess.access_token
  { st3 with client := some c }

/-- SessionManager.clear_client (session.py lines 84-88): awaits `aclose` on
the current client (marking its resource closed) and drops it. -/
def SessionManager.clear_client (st : SMState) : SMState :=
  match st.client with
  | some c => { st with client := none, closedIds := st.closedIds ++ [c.id] }
  | none => st

/-- SessionManager.authenticate_async (session.py lines 90-124): close any
existing client first, run the authenticator, then install session and a new
client; on authentication failure the error propagates with the client
already cleared. -/
def SessionManager.authenticate_async (signin : SigninOracle) (st : SMState)
    (email password : String) : Except AuthErr SessionState × SMState :=
  let st1 := SessionManager.clear_client st
  match BlokAuthenticator.authenticate signin email password with
  | .error e => (.error e, st1)
  | .ok info =>
    let sess : SessionState :=
      ⟨info.access_token, info.refresh_token, info.email, info.user_id, info.tenant_id⟩
    let st2 := { st1 with session := some sess }
    let (c, st3) := st2.newClient sess.access_token
    (.ok sess, { st3 with client := some c })

/-- SessionManager.authenticate, synchronous variant (session.py lines
126-161): runs the authenticator and installs session and a new client
without closing the previous client (the source comment notes the old client
is not closed and could leak resources); on failure the state is untouched. -/
def SessionManager.authenticate (signin : SigninOracle) (st : SMState)
    (email password : String) : Except AuthErr SessionState × SMState :=
  match BlokAuthenticator.authenticate signin email password with
  | .error e => (.error e, st)
  | .ok info =>
    let sess : SessionState :=
      ⟨info.access_token, info.refresh_token, info.email, info.user_id, info.tenant_id⟩
    let st2 := { st with session := some sess }
    let (c, st3) := st2.newClient sess.access_token
    (.ok sess, { st3 with client := some c })

/-- SessionManager.get_client (session.py lines 163-177). -/
def SessionManager.get_client (st : SMState) : Except String BlokAPIClient :=
  match st.session, st.client with
  | some _, some c => .ok c
  | _, _ => .error
      "Not authenticated. Call authenticate() first or provide email/password to the tool."

/-- SessionManager.clear (session.py lines 179-182). -/
def SessionManager.clear (st : SMState) : SMState :=
  let st1 := SessionManager.clear_client st
  { st1 with session := none }

/-- Tunnel handle returned by `ngrok.connect` as the dispatcher uses it. -/
structure Tunnel where
  public_url : String
  proto : String
deriving Repr, DecidableEq

/-- Backend request as issued by the authenticated client (full URL built by
`_build_url`, the headers built by `_get_headers`, and the query parameters
or JSON body), or the authentication call made through the authenticator. -/
inductive Req where
  | get : String → List (String × String) → Option (List (String × JVal)) → Req
  | post : String → List (String × String) → Option JVal → Req
  | signin : String → String → Req

/-- Observable side effects of a tool call: backend requests and tunnel
relay operations (`ngrok.connect`, `ngrok.disconnect`, `ngrok.kill`). -/
inductive Eff where
  | req : Req → Eff
  | connect : Int → String → Eff
  | disconnect : String → Eff
  | kill : Eff

/-- Outcome of a backend REST call as seen through httpx: a 2xx response
with parsed JSON body, a non-2xx status with the string value of the JSON
error body field "detail" when parseable (otherwise `none`), or a transport
failure. -/
inductive ApiResp where
  | ok : JVal → ApiResp
  | stat : Nat → Option String → ApiResp
  | net : String → ApiResp

/-- External collaborators of the dispatcher: the REST backend, the signin
endpoint, the tunnel relay, and the configured web dashboard URL. -/
structure Ctx where
  api : Req → ApiResp
  signin : SigninOracle
  connect : Int → String → Tunnel
  webUrl : String

/-- Process-wide dispatcher state: the session manager and the tunnel
registry `ngrok_tunnels : port-string → tunnel` (mcp_server.py line 48),
modelled as an insertion-ordered association list like a Python dict. -/
structure ServerState where
  sm : SMState
  ngrok_tunnels : List (String × Tunnel)
deriving Repr, DecidableEq

/-- Tool-handler computations: given the external collaborators, transform
the server state, extend the effect trace, and either produce a value or
raise a Python exception. -/
def M (α : Type) : Type :=
  Ctx → ServerState → List Eff → Except PyErr α × ServerState × List Eff

instance : Monad M where
  pure a := fun _ s t => (.ok a, s, t)
  bind x f := fun c s t =>
    match x c s t with
    | (.ok a, s2, t2) => f a c s2 t2
    | (.error e, s2, t2) => (.error e, s2, t2)

/-- Read the external collaborators. -/
def askCtx : M Ctx := fun c s t => (.ok c, s, t)

/-- Read the session manager state. -/
def getSM : M SMState := fun _ s t => (.ok s.sm, s, t)

/-- Replace the session manager state. -/
def setSM (sm : SMState) : M Unit := fun _ s t => (.ok (), { s with sm := sm }, t)

/-- Read the tunnel registry. -/
def getTunnels : M (List (String × Tunnel)) := fun _ s t => (.ok s.ngrok_tunnels, s, t)

/-- Replace the tunnel registry. -/
def setTunnels (l : List (String × Tunnel)) : M Unit :=
  fun _ s t => (.ok (), { s with ngrok_tunnels := l }, t)

/-- Record an observable effect. -/
def emit (e : Eff) : M Unit := fun _ s t => (.ok (), s, t ++ [e])

/-- Raise a Python exception. -/
def throwPy {α : Type} (e : PyErr) : M α := fun _ s t => (.error e, s, t)

/-- Lift a pure fallible computation. -/
def liftPy {α : Type} (x : Except PyErr α) : M α :=
  match x with
  | .ok a => fun _ s t => (.ok a, s, t)
  | .error e => throwPy e

/-- BlokAPIClient.get (api_client.py lines 65-106): build the URL and the
headers, issue the request, and translate HTTP-status and transport failures
into APIError exactly as the source does.  The handlers never pass extra
headers, so the default headers are always used. -/
def BlokAPIClient.get (cl : BlokAPIClient) (path : String)
    (params : Option (List (String × JVal))) : M JVal := do
  let c ← askCtx
  let url := BlokAPIClient.build_url cl.base_url path
  let headers := BlokAPIClient.get_headers cl.access_token none
  let req := Req.get url headers params
  emit (.req req)
  match c.api req with
  | .ok body => pure body
  | .stat code detail =>
    let m := "API request failed (" ++ toString code ++ ")"
    let m2 :=
      match detail with
      | some d => if d ≠ "" then m ++ ": " ++ d else m
      | none => m
    throwPy (.api m2)
  | .net m => throwPy (.api ("Network error: " ++ m))

/-- BlokAPIClient.post (api_client.py lines 108-154), analogous to `get`. -/
def BlokAPIClient.post (cl : BlokAPIClient) (path : String)
    (json : Option JVal) : M JVal := do
  let c ← askCtx
  let url := BlokAPIClient.build_url cl.base_url path
  let headers := BlokAPIClient.get_headers cl.access_token none
  let req := Req.post url headers json
  emit (.req req)
  match c.api req with
  | .ok body => pure body
  | .stat code detail =>
    let m := "API request failed (" ++ toString code ++ ")"
    let m2 :=
      match detail with
      | some d => if d ≠ "" then m ++ ": " ++ d else m
      | none => m
    throwPy (.api m2)
  | .net m => throwPy (.api ("Network error: " ++ m))

/-- Awaiting `self.session_manager.authenticate_async(email, password)` from
a handler: the underlying signin network call is recorded, the session
manager state is updated even on failure (the client is cleared first), and
an AuthenticationError is re-raised into the handler. -/
def smAuthenticateAsync (email password : String) : M SessionState := do
  let c ← askCtx
  let sm ← getSM
  emit (.req (.signin email password))
  match SessionManager.authenticate_async c.signin sm email password with
  | (.ok sess, sm2) => do
    setSM sm2
    pure sess
  | (.error e, sm2) => do
    setSM sm2
    throwPy (.auth e.msg)

/-- Python truthiness of an optional argument value (`dict.get` returning
None for an absent key). -/
def optTruthy : Option JVal → Bool
  | some v => v.truthy
  | none => false

/-- Value of an argument with a Python default. -/
def argGetD (args : List (String × JVal)) (k : String) (d : JVal) : JVal :=
  (alookup args k).getD d

/-- Python `arguments.get(k, "").strip()`. -/
def argStrip (args : List (String × JVal)) (k : String) : Except PyErr String :=
  match (alookup args k).getD (.s "") with
  | .s v => .ok (pyStrip v)
  | _ => .error (.ty "object has no attribute strip")

/-- String view of a credential argument handed to the authenticator
(string-valued in every specified call). -/
def jargStr (o : Option JVal) : String := (o.getD .null).pyStr

/-- Re-raising wrapper: run `body`; on success return it as True, on
AuthenticationError log-and-return False, and let any other exception
propagate (`_ensure_authenticated`, mcp_server.py lines 434-440). -/
def catchAuthBool (body : M SessionState) : M Bool := fun c s t =>
  match body c s t with
  | (.ok _, s2, t2) => (.ok true, s2, t2)
  | (.error (.auth _), s2, t2) => (.ok false, s2, t2)
  | (.error e, s2, t2) => (.error e, s2, t2)

/-- BlokMCPServer._ensure_authenticated (mcp_server.py lines 419-442). -/
def BlokMCPServer.ensure_authenticated (args : List (String × JVal)) : M Bool := do
  let sm ← getSM
  if SessionManager.is_authenticated sm then
    pure true
  else
    let email := alookup args "email"
    let password := alookup args "password"
    if optTruthy email && optTruthy password then
      catchAuthBool (smAuthenticateAsync (jargStr email) (jargStr password))
    else
      pure false

/-- Try/except wrapper of a whole handler body: any exception becomes a
text error content block built by `wrap` from `str(e)`. -/
def catchingWith (wrap : String → List TextContent) (body : M (List TextContent)) :
    M (List TextContent) := fun c s t =>
  match body c s t with
  | (.ok r, s2, t2) => (.ok r, s2, t2)
  | (.error e, s2, t2) => (.ok (wrap e.msg), s2, t2)

/-- The common `except Exception` shape `prefix + str(e)`. -/
def catching (pfx : String) (body : M (List TextContent)) : M (List TextContent) :=
  catchingWith (fun m => [⟨pfx ++ m⟩]) body

/-- The not-authenticated error block most handlers return. -/
def notAuthText : String :=
  "Error: Not authenticated. Please provide email and password, or call whoami first."

/-- Python `min(v, cap)` where `v` came from arguments. -/
def pyMinInt (v : JVal) (cap : Int) : Except PyErr Int :=
  match v with
  | .i n => .ok (min n cap)
  | _ => .error (.ty "comparison not supported between instances")

/-- Python `v[n]` indexing. -/
def pyIndex (v : JVal) (n : Nat) : Except PyErr JVal :=
  match v with
  | .arr l =>
    match l.get? n with
    | some x => .ok x
    | none => .error (.ty "list index out of range")
  | .s t =>
    match t.toList.get? n with
    | some c => .ok (.s c.toString)
    | none => .error (.ty "string index out of range")
  | _ => .error (.ty "object is not subscriptable")

/-- Python `v[:n]` slicing. -/
def pySliceJ (v : JVal) (n : Nat) : Except PyErr JVal :=
  match v with
  | .s t => .ok (.s (strSliceTo t n))
  | .arr l => .ok (.arr (l.take n))
  | _ => .error (.ty "object is not subscriptable")

/-- Python `v + t` for a string tail. -/
def pyConcatStr (v : JVal) (t : String) : Except PyErr JVal :=
  match v with
  | .s u => .ok (.s (u ++ t))
  | _ => .error (.ty "can only concatenate str to str")

/-- Python `format(v, ".0f")` (JSON numbers modelled as integers). -/
def pyFmtF0 (v : JVal) : Except PyErr String :=
  match v with
  | .i n => .ok (toString n)
  | _ => .error (.ty "unsupported format string")

/-- Python `format(v, ".1f")` (JSON numbers modelled as integers). -/
def pyFmtF1 (v : JVal) : Except PyErr String :=
  match v with
  | .i n => .ok (toString n ++ ".0")
  | _ => .error (.ty "unsupported format string")

/-- Last binding of a JSON-valued key (Python dict comprehensions let later
keys override earlier ones). -/
def lookupLastJ (l : List (JVal × JVal)) (k : JVal) : Option JVal :=
  (l.reverse.find? (fun kv => kv.1 == k)).map (·.2)

/-- First binding of a tunnel-registry key. -/
def lookupStr (l : List (String × Tunnel)) (k : String) : Option Tunnel :=
  (l.find? (fun kv => kv.1 = k)).map (·.2)

/-- Estimated runtime `round(5 + 7.2 * (0.5 + num_personas))` (mcp_server.py
lines 683 and 837).  The exact value is `(43 + 36 n) / 5` minutes, a
multiple of one fifth and hence never midway between two integers, and the
double-precision evaluation error (about 1e-15) cannot move it across a
rounding boundary (the value is at least 0.1 from every such boundary), so
CPython banker-rounding of the float equals ordinary rounding of the exact
rational, computed here in integer arithmetic. -/
def estimatedMinutes (n : Nat) : Nat := (91 + 72 * n) / 10

/-- Wrapper for `except AuthenticationError` clauses that convert the error
message into content blocks (mcp_server.py lines 409-412). -/
def catchAuthMsg (mk : String → List TextContent) (body : M (List TextContent)) :
    M (List TextContent) := fun c s t =>
  match body c s t with
  | (.error (PyErr.auth m), s2, t2) => (.ok (mk m), s2, t2)
  | r => r

/-- BlokMCPServer._whoami (mcp_server.py lines 371-417). -/
def BlokMCPServer.whoami (args : List (String × JVal)) : M (List TextContent) := do
  let email := alookup args "email"
  let password := alookup args "password"
  if !(optTruthy email) || !(optTruthy password) then
    pure [⟨"Error: Both email and password are required"⟩]
  else
    catchingWith
      (fun m => [⟨"Unexpected error: " ++ m⟩])
      (catchAuthMsg
        (fun m => [⟨"Authentication failed: " ++ m⟩])
        (do
        let sess ← smAuthenticateAsync (jargStr email) (jargStr password)
        let response :=
          "Authentication successful!\n\nEmail: " ++ sess.email ++
          "\nUser ID: " ++ sess.user_id ++ "\nTenant ID: " ++ sess.tenant_id ++
          "\n\nSession active. Future tool calls will use this session automatically."
        pure [⟨response⟩]))

/-- BlokMCPServer._list_personas (mcp_server.py lines 444-494). -/
def BlokMCPServer.list_personas (args : List (String × JVal)) : M (List TextContent) :=
  catching "Error fetching personas: " (do
    if !(← BlokMCPServer.ensure_authenticated args) then
      return [⟨notAuthText⟩]
    let client ← (do
      let sm ← getSM
      match SessionManager.get_client sm with
      | .ok c => pure c
      | .error m => throwPy (.runtime m))
    let response ← client.get "/personas" (some [("limit", .i 100)])
    let personas_list :=
      match response with
      | .obj kvs => (alookup kvs "personas").getD response
      | _ => response
    if !personas_list.truthy then
      return [⟨"No personas found for your tenant."⟩]
    let items ← liftPy (pyIter personas_list)
    let mut result := "Available Personas:\n" ++ charLine '=' 50 ++ "\n\n"
    for persona in items do
      let name ← liftPy (pyGetD persona "name" (.s "Unnamed"))
      let persona_id ← liftPy (pyGetD persona "id" (.s ""))
      let description ← liftPy (pyGetD persona "description" (.s "No description"))
      result := result ++ "* " ++ name.pyStr ++ "\n"
      result := result ++ "  ID: " ++ persona_id.pyStr ++ "\n"
      result := result ++ "  Description: " ++ description.pyStr ++ "\n\n"
    let total ← liftPy (pyLen personas_list)
    result := result ++ "Total: " ++ toString total ++ " persona(s)"
    return [⟨result⟩])

/-- BlokMCPServer._list_experiment_types (mcp_server.py lines 496-547). -/
def BlokMCPServer.list_experiment_types (args : List (String × JVal)) :
    M (List TextContent) :=
  catching "Error fetching experiment types: " (do
    if !(← BlokMCPServer.ensure_authenticated args) then
      return [⟨notAuthText⟩]
    let client ← (do
      let sm ← getSM
      match SessionManager.get_client sm with
      | .ok c => pure c
      | .error m => throwPy (.runtime m))
    let exp_types ← client.get "/experiments/types" none
    if !exp_types.truthy then
      return [⟨"No experiment types found."⟩]
    let items ← liftPy (pyIter exp_types)
    let mut result := "Available Experiment Types:\n" ++ charLine '=' 50 ++ "\n\n"
    for et in items do
      let name ← liftPy (pyGetD et "name" (.s "Unnamed"))
      let type_id ← liftPy (pyGetD et "id" (.s ""))
      let description ← liftPy (pyGetD et "description" (.s "No description"))
      let instructions ← liftPy (pyGetD et "instructions" (.s ""))
      result := result ++ "* " ++ name.pyStr ++ "\n"
      result := result ++ "  ID: " ++ type_id.pyStr ++ "\n"
      result := result ++ "  Description: " ++ description.pyStr ++ "\n"
      if instructions.truthy then
        let sliced ← liftPy (pySliceJ instructions 100)
        result := result ++ "  Instructions: " ++ sliced.pyStr ++ "...\n"
      result := result ++ "\n"
    let total ← liftPy (pyLen exp_types)
    result := result ++ "Total: " ++ toString total ++ " type(s)"
    return [⟨result⟩])

/-- Normalization of the experiment URL (mcp_server.py lines 584-586 and
747-749): default the scheme to https. -/
def normalizeExpUrl (url : String) : String :=
  if !(strStartsWith url "http://") && !(strStartsWith url "https://") then
    "https://" ++ url
  else url

/-- Suggestion-payload persona entries (mcp_server.py lines 620-630 and
782-792). -/
def personaPayloadEntry (p : JVal) : Except PyErr JVal := do
  let pid ← pyGet p "id"
  let pname ← pyGetD p "name" (.s "")
  let pdesc ← pyGetD p "description" (.s "")
  let ptraits ← pyGetD p "traits" (.obj [])
  let ptend ← pyGetD p "tendencies" (.arr [])
  let ppart ← pyGetD p "participants" (.i 0)
  pure (.obj [("id", pid), ("name", pname), ("description", pdesc),
              ("traits", ptraits), ("tendencies", ptend), ("participants", ppart)])

/-- Suggestion-payload experiment-type entries (mcp_server.py lines 631-640
and 793-802). -/
def expTypePayloadEntry (et : JVal) : Except PyErr JVal := do
  let eid ← pyGet et "id"
  let ename ← pyGet et "name"
  let einstr ← pyGet et "instructions"
  pure (.obj [("id", eid), ("name", ename), ("instructions", einstr),
              ("success_indicators", .null), ("prompt_specifics", .null)])

/-- BlokMCPServer._start_experiment (mcp_server.py lines 549-710). -/
def BlokMCPServer.start_experiment (args : List (String × JVal)) :
    M (List TextContent) :=
  catching "Error creating experiment: " (do
    if !(← BlokMCPServer.ensure_authenticated args) then
      return [⟨notAuthText⟩]
    let client ← (do
      let sm ← getSM
      match SessionManager.get_client sm with
      | .ok c => pure c
      | .error m => throwPy (.runtime m))
    let hypothesis ← liftPy (argStrip args "hypothesis")
    let goal ← liftPy (argStrip args "goal")
    let url0 ← liftPy (argStrip args "url")
    let persona_ids := argGetD args "persona_ids" (.arr [])
    if hypothesis = "" then
      return [⟨"Error: hypothesis is required"⟩]
    if goal = "" then
      return [⟨"Error: goal is required"⟩]
    if url0 = "" then
      return [⟨"Error: url is required"⟩]
    if !persona_ids.truthy then
      return [⟨"Error: At least one persona_id is required"⟩]
    let plen ← liftPy (pyLen persona_ids)
    if plen = 0 then
      return [⟨"Error: At least one persona_id is required"⟩]
    let url := normalizeExpUrl url0
    let titleS ← liftPy (argStrip args "title")
    let etidS ← liftPy (argStrip args "experiment_type_id")
    let mut title : JVal := if titleS = "" then .null else .s titleS
    let mut experiment_type_id : JVal := if etidS = "" then .null else .s etidS
    let frame_type := argGetD args "frame_type" (.s "Desktop")
    let credential_username ← liftPy (argStrip args "credential_username")
    let credential_password ← liftPy (argStrip args "credential_password")
    let credentials : JVal :=
      if credential_username ≠ "" || credential_password ≠ "" then
        .s ("username: " ++ credential_username ++ ", password: " ++ credential_password)
      else .null
    if !experiment_type_id.truthy || !title.truthy then
      let personas_response ← client.get "/personas" (some [("limit", .i 100)])
      let all_personas :=
        match personas_response with
        | .obj kvs => (alookup kvs "personas").getD personas_response
        | _ => personas_response
      let allItems ← liftPy (pyIter all_personas)
      let mut selected : List JVal := []
      for p in allItems do
        let pid ← liftPy (pyGet p "id")
        let isIn ← liftPy (pyIn pid persona_ids)
        if isIn then
          selected := selected ++ [p]
      let exp_types_response ← client.get "/experiments/types" none
      let mut pl : List JVal := []
      for p in selected do
        let entry ← liftPy (personaPayloadEntry p)
        pl := pl ++ [entry]
      let etItems ← liftPy (pyIter exp_types_response)
      let mut etl : List JVal := []
      for et in etItems do
        let entry ← liftPy (expTypePayloadEntry et)
        etl := etl ++ [entry]
      let suggestion_payload : JVal := .obj [
        ("experimentTitle", title), ("hypothesis", .s hypothesis),
        ("goal", .s goal), ("url", .s url), ("frame_type", frame_type),
        ("personas", .arr pl), ("availableExperimentTypes", .arr etl)]
      let suggestion_result ← client.post "/experiments/types/suggest" (some suggestion_payload)
      if !experiment_type_id.truthy then
        experiment_type_id ← liftPy (pyGet suggestion_result "suggested_experiment_type_id")
        if !experiment_type_id.truthy then
          return [⟨"Error: Failed to auto-suggest experiment type"⟩]
      if !title.truthy then
        title ← liftPy (pyGet suggestion_result "suggested_title")
        if !title.truthy then
          return [⟨"Error: Failed to auto-generate title"⟩]
    let experiment_payload : JVal := .obj [
      ("title", title), ("hypothesis", .s hypothesis), ("goal", .s goal),
      ("url", .s url), ("experiment_type_id", experiment_type_id),
      ("persona_ids", persona_ids), ("frame_type", frame_type),
      ("status", .s "Draft"), ("credentials", credentials)]
    let create_response ← client.post "/experiments" (some experiment_payload)
    let dataV ← liftPy (pyGetD create_response "data" (.arr [.obj []]))
    let firstV ← liftPy (pyIndex dataV 0)
    let experiment_id ← liftPy (pyGet firstV "experiment_id")
    if !experiment_id.truthy then
      return [⟨"Error: Failed to get experiment ID from response"⟩]
    let run_response ← client.post ("/experiments/" ++ experiment_id.pyStr ++ "/run") none
    let statusV ← liftPy (pyGet run_response "status")
    if statusV == JVal.s "success" then
      let num_personas ← liftPy (pyLen persona_ids)
      let estimated_minutes := estimatedMinutes num_personas
      let c ← askCtx
      let result :=
        "Experiment created and started successfully!\n\nExperiment ID: " ++
        experiment_id.pyStr ++ "\nTitle: " ++ title.pyStr ++ "\nURL: " ++ url ++
        "\nPersonas: " ++ toString num_personas ++
        "\nEstimated Runtime: " ++ toString estimated_minutes ++ " minutes" ++
        "\n\nStatus: Running\n\nThe experiment is now running in the background. " ++
        "You can check results later using:\nget_experiment_results(experiment_id=\"" ++
        experiment_id.pyStr ++ "\")\n\nOr view it in the web interface at:\n" ++
        c.webUrl ++ "/experiments/" ++ experiment_id.pyStr
      return [⟨result⟩]
    else
      let em ← liftPy (pyGetD run_response "message" (.s "Unknown error"))
      return [⟨"Experiment created but failed to start: " ++ em.pyStr⟩])

/-- BlokMCPServer._create_experiment_from_description (mcp_server.py lines
712-862). -/
def BlokMCPServer.create_experiment_from_description (args : List (String × JVal)) :
    M (List TextContent) :=
  catching "Error creating experiment: " (do
    if !(← BlokMCPServer.ensure_authenticated args) then
      return [⟨"Error: Not authenticated. Provide email/password or call whoami first."⟩]
    let client ← (do
      let sm ← getSM
      match SessionManager.get_client sm with
      | .ok c => pure c
      | .error m => throwPy (.runtime m))
    let test_description ← liftPy (argStrip args "test_description")
    let url0 ← liftPy (argStrip args "url")
    let persona_ids := argGetD args "persona_ids" (.arr [])
    let frame_type := argGetD args "frame_type" (.s "Desktop")
    let credentials ← liftPy (argStrip args "credentials")
    if test_description = "" then
      return [⟨"Error: test_description required"⟩]
    if url0 = "" then
      return [⟨"Error: url required"⟩]
    if !persona_ids.truthy then
      return [⟨"Error: At least one persona_id required"⟩]
    let plen ← liftPy (pyLen persona_ids)
    if plen = 0 then
      return [⟨"Error: At least one persona_id required"⟩]
    let url := normalizeExpUrl url0
    let hypothesis := "Can users " ++ test_description ++ "?"
    let goal := "Users should " ++ test_description
    let title_words := (pySplitWs test_description).take 5
    let title := pyTitle (String.intercalate " " title_words)
    let personas_response ← client.get "/personas" (some [("limit", .i 100)])
    let all_personas :=
      match personas_response with
      | .obj kvs => (alookup kvs "personas").getD personas_response
      | _ => personas_response
    let allItems ← liftPy (pyIter all_personas)
    let mut selected : List JVal := []
    for p in allItems do
      let pid ← liftPy (pyGet p "id")
      let isIn ← liftPy (pyIn pid persona_ids)
      if isIn then
        selected := selected ++ [p]
    let exp_types_response ← client.get "/experiments/types" none
    let mut creds : JVal := .null
    if credentials ≠ "" then
      if !(strContains credentials ":") then
        return [⟨"Error: credentials must be in format " ++ pySq ++
                 "username:password" ++ pySq⟩]
      let parts := splitOnChar (Char.ofNat 58) credentials
      creds := .s ("username: " ++ ((parts.get? 0).getD "") ++
                   ", password: " ++ ((parts.get? 1).getD ""))
    let mut pl : List JVal := []
    for p in selected do
      let entry ← liftPy (personaPayloadEntry p)
      pl := pl ++ [entry]
    let etItems ← liftPy (pyIter exp_types_response)
    let mut etl : List JVal := []
    for et in etItems do
      let entry ← liftPy (expTypePayloadEntry et)
      etl := etl ++ [entry]
    let suggest_payload : JVal := .obj [
      ("experimentTitle", .s title), ("hypothesis", .s hypothesis),
      ("goal", .s goal), ("url", .s url), ("frame_type", frame_type),
      ("personas", .arr pl), ("availableExperimentTypes", .arr etl)]
    let suggest_result ← client.post "/experiments/types/suggest" (some suggest_payload)
    let experiment_type_id ← liftPy (pyGet suggest_result "suggested_experiment_type_id")
    if !experiment_type_id.truthy then
      return [⟨"Error: Failed to determine experiment type"⟩]
    let experiment_payload : JVal := .obj [
      ("title", .s title), ("hypothesis", .s hypothesis), ("goal", .s goal),
      ("url", .s url), ("experiment_type_id", experiment_type_id),
      ("persona_ids", persona_ids), ("frame_type", frame_type),
      ("status", .s "Draft"), ("credentials", creds)]
    let create_response ← client.post "/experiments" (some experiment_payload)
    let dataV ← liftPy (pyGetD create_response "data" (.arr [.obj []]))
    let firstV ← liftPy (pyIndex dataV 0)
    let experiment_id ← liftPy (pyGet firstV "experiment_id")
    if !experiment_id.truthy then
      return [⟨"Error: Failed to get experiment ID"⟩]
    let run_response ← client.post ("/experiments/" ++ experiment_id.pyStr ++ "/run") none
    let statusV ← liftPy (pyGet run_response "status")
    if statusV == JVal.s "success" then
      let num_personas ← liftPy (pyLen persona_ids)
      let estimated_minutes := estimatedMinutes num_personas
      let c ← askCtx
      let result :=
        "Experiment created and started!\n\nExperiment ID: " ++ experiment_id.pyStr ++
        "\nTitle: " ++ title ++ "\nHypothesis: " ++ hypothesis ++ "\nGoal: " ++ goal ++
        "\nURL: " ++ url ++ "\nPersonas: " ++ toString num_personas ++
        "\nEstimated Runtime: " ++ toString estimated_minutes ++ " minutes" ++
        "\n\nStatus: Running\n\nView experiment at: " ++ c.webUrl ++
        "/experiments/" ++ experiment_id.pyStr
      return [⟨result⟩]
    else
      let em ← liftPy (pyGetD run_response "message" (.s "Unknown error"))
      return [⟨"Experiment created but failed to start: " ++ em.pyStr⟩])

/-- BlokMCPServer._list_experiments (mcp_server.py lines 864-963). -/
def BlokMCPServer.list_experiments (args : List (String × JVal)) :
    M (List TextContent) :=
  catching "Error fetching experiments: " (do
    if !(← BlokMCPServer.ensure_authenticated args) then
      return [⟨notAuthText⟩]
    let client ← (do
      let sm ← getSM
      match SessionManager.get_client sm with
      | .ok c => pure c
      | .error m => throwPy (.runtime m))
    let nf0 ← liftPy (argStrip args "name_filter")
    let name_filter := strToLower nf0
    let status_filter ← liftPy (argStrip args "status_filter")
    let limitV := argGetD args "limit" (.i 20)
    let limit ← liftPy (pyMinInt limitV 100)
    let params := [("limit", JVal.i limit)] ++
      (if status_filter ≠ "" then [("status", JVal.s status_filter)] else [])
    let response ← client.get "/experiments" (some params)
    let mut experiments_list :=
      match response with
      | .obj kvs => (alookup kvs "experiments").getD response
      | _ => response
    if !experiments_list.truthy then
      return [⟨"No experiments found."⟩]
    if name_filter ≠ "" then
      let items ← liftPy (pyIter experiments_list)
      let mut filtered : List JVal := []
      for exp in items do
        let t ← liftPy (pyGetD exp "title" (.s ""))
        let ts ← liftPy (pyAsStr t)
        if strContains (strToLower ts) name_filter then
          filtered := filtered ++ [exp]
      experiments_list := .arr filtered
    if !experiments_list.truthy then
      return [⟨"No experiments found matching " ++ pySq ++ name_filter ++ pySq ++ "."⟩]
    let items ← liftPy (pyIter experiments_list)
    let mut result := "Your Experiments:\n" ++ charLine '=' 50 ++ "\n\n"
    for exp in items do
      let t1 ← liftPy (pyGet exp "title")
      let title ← (if t1.truthy then pure t1 else liftPy (pyGetD exp "name" (.s "Untitled")))
      let i1 ← liftPy (pyGet exp "id")
      let i2 ← (if i1.truthy then pure i1 else liftPy (pyGet exp "experiment_id"))
      let exp_id ← (if i2.truthy then pure i2 else liftPy (pyGetD exp "uuid" (.s "")))
      let status ← liftPy (pyGetD exp "status" (.s "Unknown"))
      let urlv ← liftPy (pyGetD exp "url" (.s ""))
      let c1 ← liftPy (pyGet exp "created_at")
      let created0 ← (if c1.truthy then pure c1 else liftPy (pyGetD exp "createdAt" (.s "")))
      let mut created_at := created0
      if created_at.truthy then
        let ln ← liftPy (pyLen created_at)
        if ln > 10 then
          created_at ← liftPy (pySliceJ created_at 10)
      let status_indicator :=
        if status == JVal.s "Draft" then "[Draft]"
        else if status == JVal.s "Running" then "[Running]"
        else if status == JVal.s "Completed" then "[Done]"
        else if status == JVal.s "Failed" then "[Failed]"
        else "[?]"
      result := result ++ status_indicator ++ " " ++ title.pyStr ++ "\n"
      result := result ++ "   ID: " ++
        (if exp_id.truthy then exp_id.pyStr else "(not available)") ++ "\n"
      result := result ++ "   Status: " ++ status.pyStr ++ "\n"
      if urlv.truthy then
        result := result ++ "   URL: " ++ urlv.pyStr ++ "\n"
      if created_at.truthy then
        result := result ++ "   Created: " ++ created_at.pyStr ++ "\n"
      result := result ++ "\n"
    let total ← liftPy (pyLen experiments_list)
    result := result ++ "Total: " ++ toString total ++ " experiment(s)"
    if name_filter ≠ "" then
      result := result ++ " (filtered by " ++ pySq ++ name_filter ++ pySq ++ ")"
    result := result ++
      "\n\nTo get detailed results, use:\nget_experiment_results(experiment_id=\"<id>\")"
    return [⟨result⟩])

/-- BlokMCPServer._get_experiment_results (mcp_server.py lines 965-1113). -/
def BlokMCPServer.get_experiment_results (args : List (String × JVal)) :
    M (List TextContent) :=
  catching "Error fetching experiment results: " (do
    if !(← BlokMCPServer.ensure_authenticated args) then
      return [⟨notAuthText⟩]
    let experiment_id ← liftPy (argStrip args "experiment_id")
    if experiment_id = "" then
      return [⟨"Error: experiment_id is required"⟩]
    let client ← (do
      let sm ← getSM
      match SessionManager.get_client sm with
      | .ok c => pure c
      | .error m => throwPy (.runtime m))
    let response ← client.get ("/experiments/" ++ experiment_id ++ "/results") none
    if !response.truthy then
      return [⟨"Error: Experiment " ++ experiment_id ++ " not found"⟩]
    let experiment ← liftPy (pyGetD response "experiment" (.obj []))
    let personas ← liftPy (pyGetD response "personas" (.arr []))
    let experiment_type ← liftPy (pyGetD response "experiment_type" (.obj []))
    let results ← liftPy (pyGetD response "results" (.arr []))
    let pItems ← liftPy (pyIter personas)
    let mut persona_lookup : List (JVal × JVal) := []
    for p in pItems do
      let pid ← liftPy (pyGet p "id")
      let pname ← liftPy (pyGetD p "name" (.s "Unknown"))
      persona_lookup := persona_lookup ++ [(pid, pname)]
    let title ← liftPy (pyGetD experiment "title" (.s "Untitled"))
    let status ← liftPy (pyGetD experiment "status" (.s "Unknown"))
    let hypothesis ← liftPy (pyGetD experiment "hypothesis" (.s ""))
    let goal ← liftPy (pyGetD experiment "goal" (.s ""))
    let urlv ← liftPy (pyGetD experiment "url" (.s ""))
    let summary ← liftPy (pyGetD experiment "summary" (.s ""))
    let exp_type_name ← liftPy (pyGetD experiment_type "name" (.s ""))
    let status_indicator :=
      if status == JVal.s "Draft" then "[Draft]"
      else if status == JVal.s "Running" then "[Running]"
      else if status == JVal.s "Completed" then "[Done]"
      else if status == JVal.s "Failed" then "[Failed]"
      else if status == JVal.s "Cancelled" then "[Cancelled]"
      else if status == JVal.s "Archived" then "[Archived]"
      else "[?]"
    let mut output := "Experiment Results: " ++ title.pyStr ++ "\n" ++
      charLine '=' 50 ++ "\n\n"
    output := output ++ "ID: " ++ experiment_id ++ "\n"
    output := output ++ "Status: " ++ status_indicator ++ " " ++ status.pyStr ++ "\n"
    if exp_type_name.truthy then
      output := output ++ "Type: " ++ exp_type_name.pyStr ++ "\n"
    output := output ++ "URL: " ++ urlv.pyStr ++ "\n"
    if hypothesis.truthy then
      output := output ++ "Hypothesis: " ++ hypothesis.pyStr ++ "\n"
    if goal.truthy then
      output := output ++ "Goal: " ++ goal.pyStr ++ "\n"
    if summary.truthy then
      output := output ++ "\nSummary:\n" ++ summary.pyStr ++ "\n"
    if results.truthy then
      let rl ← liftPy (pyLen results)
      output := output ++ "\n" ++ charLine '-' 50 ++ "\n"
      output := output ++ "Persona Results (" ++ toString rl ++ "):\n"
      output := output ++ charLine '-' 50 ++ "\n"
      let rItems ← liftPy (pyIter results)
      let mut i := 1
      for res in rItems do
        let persona_id ← liftPy (pyGetD res "persona_id" (.s ""))
        let persona_name := (lookupLastJ persona_lookup persona_id).getD (.s "Unknown Persona")
        let confidence ← liftPy (pyGet res "confidence")
        let metrics ← liftPy (pyGetD res "metrics" (.obj []))
        let recommendations ← liftPy (pyGetD res "recommendations" (.arr []))
        let completion_rate ← liftPy (pyGet metrics "completion_rate")
        let time_spent ← liftPy (pyGet metrics "time")
        let min_interactions ← liftPy (pyGet metrics "min_num_interactions")
        let max_interactions ← liftPy (pyGet metrics "max_num_interactions")
        output := output ++ "\n" ++ toString i ++ ". " ++ persona_name.pyStr ++ "\n"
        let mut metrics_parts : List String := []
        if !(completion_rate == JVal.null) then
          let f ← liftPy (pyFmtF0 completion_rate)
          metrics_parts := metrics_parts ++ ["Completion: " ++ f ++ "%"]
        if !(time_spent == JVal.null) then
          let f ← liftPy (pyFmtF1 time_spent)
          metrics_parts := metrics_parts ++ ["Time: " ++ f ++ "s"]
        if !(confidence == JVal.null) then
          metrics_parts := metrics_parts ++ ["Confidence: " ++ confidence.pyStr ++ "%"]
        if !(min_interactions == JVal.null) && !(max_interactions == JVal.null) then
          if min_interactions == max_interactions then
            metrics_parts := metrics_parts ++ ["Steps: " ++ min_interactions.pyStr]
          else
            metrics_parts := metrics_parts ++
              ["Steps: " ++ min_interactions.pyStr ++ "-" ++ max_interactions.pyStr]
        if !metrics_parts.isEmpty then
          output := output ++ "   " ++ String.intercalate " | " metrics_parts ++ "\n"
        let mut journey ← liftPy (pyGetD res "summary" (.s ""))
        if journey.truthy then
          let jl ← liftPy (pyLen journey)
          if jl > 300 then
            let sliced ← liftPy (pySliceJ journey 300)
            journey ← liftPy (pyConcatStr sliced "...")
          output := output ++ "\n   Journey: " ++ journey.pyStr ++ "\n"
        if recommendations.truthy then
          output := output ++ "\n   Recommendations:\n"
          let recItems ← liftPy (pyIter recommendations)
          for rec in recItems.take 5 do
            let mut rec_text ← (match rec with
              | .obj _ => liftPy (pyGetD rec "recommendation" (.s ""))
              | _ => pure (JVal.s rec.pyStr))
            if rec_text.truthy then
              let rl2 ← liftPy (pyLen rec_text)
              if rl2 > 150 then
                let sliced ← liftPy (pySliceJ rec_text 150)
                rec_text ← liftPy (pyConcatStr sliced "...")
              output := output ++ "   * " ++ rec_text.pyStr ++ "\n"
        i := i + 1
    else
      if status == JVal.s "Running" then
        output := output ++ "\nExperiment is still running. Results will be available when complete.\n"
      else if status == JVal.s "Draft" then
        output := output ++ "\nExperiment has not been started yet.\n"
      else
        output := output ++ "\nNo persona results found.\n"
    let c ← askCtx
    output := output ++ "\nView full details at:\n" ++ c.webUrl ++
      "/experiments/" ++ experiment_id
    return [⟨output⟩])

/-- BlokMCPServer._start_ngrok (mcp_server.py lines 1115-1168). -/
def BlokMCPServer.start_ngrok (args : List (String × JVal)) : M (List TextContent) :=
  catchingWith
    (fun m => [⟨"Error starting ngrok: " ++ m ++
      "\n\nMake sure:\n1. ngrok is installed (pip install pyngrok)" ++
      "\n2. You have an ngrok account (sign up at ngrok.com)" ++
      "\n3. Your port is not already in use"⟩])
    (do
      let portV := alookup args "port"
      let protocol := argGetD args "protocol" (.s "http")
      if !(optTruthy portV) then
        return [⟨"Error: port is required"⟩]
      match portV with
      | some (.i p) =>
        if p < 1 || p > 65535 then
          return [⟨"Error: port must be between 1 and 65535"⟩]
        let tunnels ← getTunnels
        let key := toString p
        match lookupStr tunnels key with
        | some existing_tunnel =>
          return [⟨"Tunnel already exists for port " ++ toString p ++
            "\n\nPublic URL: " ++ existing_tunnel.public_url ++
            "\n\nUse stop_ngrok to close it first if you want to restart."⟩]
        | none =>
          let c ← askCtx
          emit (.connect p protocol.pyStr)
          let tunnel := c.connect p protocol.pyStr
          setTunnels (tunnels ++ [(key, tunnel)])
          return [⟨"ngrok tunnel started successfully!\n\nPort: " ++ toString p ++
            "\nProtocol: " ++ protocol.pyStr ++ "\nPublic URL: " ++ tunnel.public_url ++
            "\n\nUse this URL in your experiments. The tunnel will remain active " ++
            "until you call stop_ngrok.\n\nExample usage:\nstart_experiment(url=\"" ++
            tunnel.public_url ++ "\", ...)"⟩]
      | _ =>
        return [⟨"Error: port must be between 1 and 65535"⟩])

/-- BlokMCPServer._get_ngrok_status (mcp_server.py lines 1170-1204). -/
def BlokMCPServer.get_ngrok_status (_args : List (String × JVal)) :
    M (List TextContent) :=
  catching "Error getting ngrok status: " (do
    let tunnels ← getTunnels
    if tunnels.isEmpty then
      return [⟨"No active ngrok tunnels.\n\nUse start_ngrok to create one."⟩]
    let mut result := "Active ngrok tunnels:\n" ++ charLine '=' 50 ++ "\n\n"
    for pt in tunnels do
      result := result ++ "Port: " ++ pt.1 ++ "\n"
      result := result ++ "Public URL: " ++ pt.2.public_url ++ "\n"
      result := result ++ "Protocol: " ++ pt.2.proto ++ "\n"
      result := result ++ "Status: Active\n\n"
    result := result ++ "Total: " ++ toString tunnels.length ++ " tunnel(s)"
    return [⟨result⟩])

/-- BlokMCPServer._stop_ngrok (mcp_server.py lines 1206-1251). -/
def BlokMCPServer.stop_ngrok (args : List (String × JVal)) : M (List TextContent) :=
  catching "Error stopping ngrok: " (do
    let port := argGetD args "port" .null
    if !(port == JVal.null) then
      let port_str := port.pyStr
      let tunnels ← getTunnels
      match lookupStr tunnels port_str with
      | none =>
        return [⟨"No active tunnel found for port " ++ port.pyStr ++
          "\n\nUse get_ngrok_status to see active tunnels."⟩]
      | some tunnel =>
        emit (.disconnect tunnel.public_url)
        setTunnels (tunnels.filter (fun kv => kv.1 ≠ port_str))
        return [⟨"ngrok tunnel stopped for port " ++ port.pyStr⟩]
    else
      let tunnels ← getTunnels
      if tunnels.isEmpty then
        return [⟨"No active tunnels to stop."⟩]
      emit .kill
      setTunnels []
      return [⟨"Stopped all ngrok tunnels (" ++ toString tunnels.length ++ " tunnel(s))"⟩])

/-- The call_tool dispatch (mcp_server.py lines 345-369); an unknown tool
name raises ValueError to the transport. -/
def BlokMCPServer.call_tool (name : String) (args : List (String × JVal)) :
    M (List TextContent) :=
  if name = "whoami" then BlokMCPServer.whoami args
  else if name = "list_personas" then BlokMCPServer.list_personas args
  else if name = "list_experiment_types" then BlokMCPServer.list_experiment_types args
  else if name = "start_experiment" then BlokMCPServer.start_experiment args
  else if name = "create_experiment_from_description" then
    BlokMCPServer.create_experiment_from_description args
  else if name = "list_experiments" then BlokMCPServer.list_experiments args
  else if name = "get_experiment_results" then BlokMCPServer.get_experiment_results args
  else if name = "start_ngrok" then BlokMCPServer.start_ngrok args
  else if name = "get_ngrok_status" then BlokMCPServer.get_ngrok_status args
  else if name = "stop_ngrok" then BlokMCPServer.stop_ngrok args
  else throwPy (.value ("Unknown tool: " ++ name))

/-- Demonstration signin backend: accepts two fixed credential pairs and
rejects everything else with HTTP 401. -/
def demoSignin : SigninOracle := fun email password =>
  if email = "user@example.com" && password = "pw1" then
    .ok (some "tokA") (some "refA") (some "user@example.com") (some "u1") (some "t1")
  else if email = "user2@example.com" && password = "pw2" then
    .ok (some "tokB") (some "refB") (some "user2@example.com") (some "u2") (some "t2")
  else
    .stat 401 (some "Invalid login credentials")

/-- Demonstration REST backend implementing the scenario of the spec: one
persona `p1`, one experiment type `t1`, a suggestion endpoint, experiment
creation returning id `e1`, and a successful run. -/
def demoApi : Req → ApiResp := fun r =>
  match r with
  | .get url _ _ =>
    if url = "https://app.joinblok.co/api/v1/personas" then
      .ok (.obj [("personas", .arr [.obj [("id", .s "p1"), ("name", .s "Alice")]])])
    else if url = "https://app.joinblok.co/api/v1/experiments/types" then
      .ok (.arr [.obj [("id", .s "t1"), ("name", .s "Onboarding")]])
    else .stat 404 none
  | .post url _ _ =>
    if url = "https://app.joinblok.co/api/v1/experiments/types/suggest" then
      .ok (.obj [("suggested_experiment_type_id", .s "t1"),
                 ("suggested_title", .s "Onboarding Check")])
    else if url = "https://app.joinblok.co/api/v1/experiments" then
      .ok (.obj [("data", .arr [.obj [("experiment_id", .s "e1")]])])
    else if url = "https://app.joinblok.co/api/v1/experiments/e1/run" then
      .ok (.obj [("status", .s "success")])
    else .stat 404 none
  | .signin _ _ => .stat 404 none

/-- Demonstration external collaborators. -/
def demoCtx : Ctx :=
  ⟨demoApi, demoSignin, fun p proto => ⟨"https://tun" ++ toString p ++ ".ngrok.app", proto⟩,
   "https://app.joinblok.co"⟩

/-- Fresh session manager over the demonstration base URL. -/
def freshSM : SMState := SessionManager.init "https://app.joinblok.co"

/-- Session manager holding a pre-supplied token (one session, one client). -/
def authedSM : SMState := SessionManager.set_token freshSM "tok123"

/-- Fresh server state. -/
def freshSrv : ServerState := ⟨freshSM, []⟩

/-- Server state with a pre-authenticated session. -/
def authedSrv : ServerState := ⟨authedSM, []⟩

/-- Arguments of the specification scenario for experiment creation. -/
def scenarioArgs : List (String × JVal) :=
  [("hypothesis", .s "h"), ("goal", .s "g"), ("url", .s "example.com"),
   ("persona_ids", .arr [.s "p1"])]

/-- Error block each authentication-dependent tool returns when called with
no session and no credentials. -/
def expectedNoAuthMsg (name : String) : String :=
  if name = "whoami" then "Error: Both email and password are required"
  else if name = "create_experiment_from_description" then
    "Error: Not authenticated. Provide email/password or call whoami first."
  else notAuthText

/-- URL (or operation label) of an observable effect. -/
def effUrl : Eff → String
  | .req (.get url _ _) => url
  | .req (.post url _ _) => url
  | .req (.signin _ _) => "auth/signin"
  | .connect _ _ => "ngrok.connect"
  | .disconnect _ => "ngrok.disconnect"
  | .kill => "ngrok.kill"

/-- JSON body of the experiment-creation POST in an effect trace. -/
def findCreateBody : List Eff → Option JVal
  | [] => none
  | .req (.post url _ (some body)) :: rest =>
    if url = "https://app.joinblok.co/api/v1/experiments" then some body
    else findCreateBody rest
  | _ :: rest => findCreateBody rest

/-- Unfolding lemma for monadic sequencing in `M`. -/
theorem M_bind_eq {α β : Type} (x : M α) (f : α → M β) (c : Ctx) (s : ServerState)
    (t : List Eff) :
    (x >>= f) c s t =
      match x c s t with
      | (.ok a, s2, t2) => f a c s2 t2
      | (.error e, s2, t2) => (.error e, s2, t2) := rfl

/-- Unfolding lemma for `pure` in `M`. -/
theorem M_pure_eq {α : Type} (a : α) (c : Ctx) (s : ServerState) (t : List Eff) :
    (pure a : M α) c s t = (.ok a, s, t) := rfl

/-- C4: the URL builder normalizes paths: `personas`, `/personas` and
`api/v1/personas` all map to `<base>/api/v1/personas`; in general it strips
leading slashes, prepends `api/v1/` exactly when the stripped path does not
already start with it, and joins base and path with a single slash. -/
theorem build_url_normalizes (base p : String) :
    BlokAPIClient.build_url base "personas" = base ++ "/api/v1/personas" ∧
    BlokAPIClient.build_url base "/personas" = base ++ "/api/v1/personas" ∧
    BlokAPIClient.build_url base "api/v1/personas" = base ++ "/api/v1/personas" ∧
    BlokAPIClient.build_url base p =
      base ++ "/" ++
        (if strStartsWith (lstripSlash p) "api/v1/" then lstripSlash p
         else "api/v1/" ++ lstripSlash p) := by
  refine ⟨?_, ?_, ?_, rfl⟩ <;>
    · show base ++ "/" ++ _ = _
      rw [String.append_assoc]; congr 1

/-- C3: `get_client` on a freshly initialized session manager fails with the
not-authenticated error; after `set_token("tok123")` it returns a client
bound to `tok123` whose every outgoing request carries
`Authorization: Bearer tok123` and `Content-Type: application/json`. -/
theorem get_client_before_and_after_set_token (url path : String)
    (params : Option (List (String × JVal))) (c2 : Ctx) (srv : ServerState)
    (tr : List Eff) :
    SessionManager.get_client (SessionManager.init url) =
      .error "Not authenticated. Call authenticate() first or provide email/password to the tool." ∧
    ∃ cl, SessionManager.get_client
        (SessionManager.set_token (SessionManager.init url) "tok123") = .ok cl ∧
      cl.access_token = "tok123" ∧
      BlokAPIClient.get_headers cl.access_token none =
        [("Authorization", "Bearer tok123"), ("Content-Type", "application/json")] ∧
      ((cl.get path params) c2 srv tr).2.2 =
        tr ++ [Eff.req (Req.get (BlokAPIClient.build_url cl.base_url path)
          [("Authorization", "Bearer tok123"), ("Content-Type", "application/json")]
          params)]
 := by
  have htr : ∀ (cl : BlokAPIClient) (path2 : String)
      (params2 : Option (List (String × JVal))) (c3 : Ctx) (srv2 : ServerState)
      (tr2 : List Eff),
      ((cl.get path2 params2) c3 srv2 tr2).2.2 =
        tr2 ++ [Eff.req (Req.get (BlokAPIClient.build_url cl.base_url path2)
          (BlokAPIClient.get_headers cl.access_token none) params2)] := by
    intro cl path2 params2 c3 srv2 tr2
    show (BlokAPIClient.get cl path2 params2 c3 srv2 tr2).2.2 = _
    simp only [BlokAPIClient.get, M_bind_eq, askCtx, emit, M_pure_eq]
    cases c3.api (Req.get (BlokAPIClient.build_url cl.base_url path2)
        (BlokAPIClient.get_headers cl.access_token none) params2) <;>
      simp [throwPy, M_pure_eq]
  refine ⟨rfl, ⟨0, "tok123", rstripSlash url⟩, rfl, rfl, ?_, ?_⟩
  · show BlokAPIClient.get_headers "tok123" none = _
    decide
  · have h := htr ⟨0, "tok123", rstripSlash url⟩ path params c2 srv tr
    rw [(by decide : BlokAPIClient.get_headers "tok123" none =
      [("Authorization", "Bearer tok123"), ("Content-Type", "application/json")])] at h
    exact h

/-- C10: `set_token` validates nothing: any string token, the empty string
included, installs a session, turns `is_authenticated` on, and binds the
reachable client to that literal token, whose requests would carry
`Authorization: Bearer <token>` (for the empty token, `Bearer `). -/
theorem set_token_accepts_any_token (st : SMState) (tok email user_id tenant_id : String) :
    SessionManager.is_authenticated
      (SessionManager.set_token st tok email user_id tenant_id) = true ∧
    (SessionManager.set_token st tok email user_id tenant_id).session =
      some ⟨tok, "", email, user_id, tenant_id⟩ ∧
    (∃ cl, SessionManager.get_client
        (SessionManager.set_token st tok email user_id tenant_id) = .ok cl ∧
      cl.access_token = tok ∧
      BlokAPIClient.get_headers cl.access_token none =
        [("Authorization", "Bearer " ++ tok), ("Content-Type", "application/json")]) ∧
    BlokAPIClient.get_headers "" none =
      [("Authorization", "Bearer "), ("Content-Type", "application/json")] := by
  refine ⟨rfl, rfl, ⟨⟨st.nextId, tok, rstripSlash st.blok_api_url⟩, rfl, rfl, rfl⟩, by decide⟩

/-- Specification-side failure condition for the authenticator, phrased from
the spec: non-2xx status, transport error, or a 2xx payload without a
non-empty access token. -/
def specAuthFailCondition : SigninResp → Bool
  | .ok tok _ _ _ _ =>
    match tok with
    | none => true
    | some t => t = ""
  | .stat _ _ => true
  | .net _ => true

/-- C5: the authenticator fails with AuthenticationError exactly on non-2xx
responses (message `Invalid email or password` on 401, `User not found` on
404, otherwise the generic message enriched with a parseable `detail`),
transport errors (message wrapping the network error), and 2xx payloads
without a non-empty access token. -/
theorem authenticator_failure_cases (signin : SigninOracle) (email password : String) :
    ((∃ e, BlokAuthenticator.authenticate signin email password = .error e) ↔
      specAuthFailCondition (signin email password) = true) ∧
    (∀ detail, signin email password = .stat 401 detail →
      BlokAuthenticator.authenticate signin email password =
        .error ⟨"Invalid email or password"⟩) ∧
    (∀ detail, signin email password = .stat 404 detail →
      BlokAuthenticator.authenticate signin email password =
        .error ⟨"User not found"⟩) ∧
    (∀ code d, signin email password = .stat code (some d) → code ≠ 401 → code ≠ 404 →
      d ≠ "" →
      BlokAuthenticator.authenticate signin email password =
        .error ⟨"Authentication failed: " ++ d⟩) ∧
    (∀ code detail, signin email password = .stat code detail → code ≠ 401 → code ≠ 404 →
      (∀ d, detail = some d → d = "") →
      BlokAuthenticator.authenticate signin email password =
        .error ⟨"Authentication failed"⟩) ∧
    (∀ m, signin email password = .net m →
      BlokAuthenticator.authenticate signin email password =
        .error ⟨"Network error during authentication: " ++ m⟩) ∧
    (∀ rt em uid tid,
      (signin email password = .ok none rt em uid tid ∨
       signin email password = .ok (some "") rt em uid tid) →
      BlokAuthenticator.authenticate signin email password =
        .error ⟨"No access token in response"⟩) ∧
    (∀ t rt em uid tid, signin email password = .ok (some t) rt em uid tid → t ≠ "" →
      BlokAuthenticator.authenticate signin email password =
        .ok ⟨t, rt.getD "", em.getD email, uid.getD "", tid.getD ""⟩) := by
  refine ⟨?_, ?_, ?_, ?_, ?_, ?_, ?_, ?_⟩
  · constructor
    · rintro ⟨e, he⟩
      cases h : signin email password with
      | ok tok rt em uid tid =>
        cases tok with
        | none => simp [specAuthFailCondition]
        | some t =>
          by_cases ht : t = ""
          · simp [specAuthFailCondition, ht]
          · exfalso
            rw [BlokAuthenticator.authenticate, h] at he
            simp [ht] at he
      | stat code detail => simp [specAuthFailCondition]
      | net m => simp [specAuthFailCondition]
    · intro hf
      cases h : signin email password with
      | ok tok rt em uid tid =>
        rw [h] at hf
        cases tok with
        | none => exact ⟨⟨"No access token in response"⟩, by rw [BlokAuthenticator.authenticate, h]⟩
        | some t =>
          have ht : t = "" := by simpa [specAuthFailCondition] using hf
          subst ht
          exact ⟨⟨"No access token in response"⟩,
            by rw [BlokAuthenticator.authenticate, h]; rfl⟩
      | stat code detail =>
        by_cases h1 : code = 401
        · exact ⟨⟨"Invalid email or password"⟩,
            by rw [BlokAuthenticator.authenticate, h]; simp [h1]⟩
        · by_cases h4 : code = 404
          · exact ⟨⟨"User not found"⟩,
              by rw [BlokAuthenticator.authenticate, h]; simp [h1, h4]⟩
          · cases detail with
            | none =>
              exact ⟨⟨"Authentication failed"⟩,
                by rw [BlokAuthenticator.authenticate, h]; simp [h1, h4]⟩
            | some d =>
              by_cases hd : d = ""
              · exact ⟨⟨"Authentication failed"⟩,
                  by rw [BlokAuthenticator.authenticate, h]; simp [h1, h4, hd]⟩
              · exact ⟨⟨"Authentication failed: " ++ d⟩,
                  by rw [BlokAuthenticator.authenticate, h]; simp [h1, h4, hd]⟩
      | net m =>
        exact ⟨⟨"Network error during authentication: " ++ m⟩,
          by rw [BlokAuthenticator.authenticate, h]⟩
  · intro detail h
    rw [BlokAuthenticator.authenticate, h]
    simp
  · intro detail h
    rw [BlokAuthenticator.authenticate, h]
    simp
  · intro code d h h1 h4 hd
    rw [BlokAuthenticator.authenticate, h]
    simp [h1, h4, hd]
  · intro code detail h h1 h4 hd
    rw [BlokAuthenticator.authenticate, h]
    cases detail with
    | none => simp [h1, h4]
    | some d =>
      have : d = "" := hd d rfl
      subst this
      simp [h1, h4]
  · intro m h
    rw [BlokAuthenticator.authenticate, h]
  · intro rt em uid tid h
    cases h with
    | inl h => rw [BlokAuthenticator.authenticate, h]
    | inr h => rw [BlokAuthenticator.authenticate, h]; rfl
  · intro t rt em uid tid h ht
    rw [BlokAuthenticator.authenticate, h]
    simp [ht]

/-- Witness for C5: the demonstration backend rejects bad credentials with
HTTP 401 and the authenticator reports `Invalid email or password`. -/
theorem authenticator_failure_cases_witness :
    demoSignin "bad@example.com" "wrong" = .stat 401 (some "Invalid login credentials") ∧
    BlokAuthenticator.authenticate demoSignin "bad@example.com" "wrong" =
      .error ⟨"Invalid email or password"⟩ :=
  ⟨by decide,
   (authenticator_failure_cases demoSignin "bad@example.com" "wrong").2.1
     (some "Invalid login credentials") (by decide)⟩

/-- C1 (evaluation at the failing input): two successful calls of the
synchronous `SessionManager.authenticate` leave two clients whose connection
resource was never released (the first is leaked, not closed before the
second is installed), while the asynchronous variant closes the first client
and leaves exactly one live client bound to the second token. -/
theorem sync_authenticate_leaks_first_client :
    (let r1 := SessionManager.authenticate demoSignin freshSM "user@example.com" "pw1"
     let r2 := SessionManager.authenticate demoSignin r1.2 "user2@example.com" "pw2"
     r2.2.liveClients = 2 ∧ r2.2.closedIds = [] ∧
       r2.2.client = some ⟨1, "tokB", "https://app.joinblok.co"⟩) ∧
    (let a1 := SessionManager.authenticate_async demoSignin freshSM "user@example.com" "pw1"
     let a2 := SessionManager.authenticate_async demoSignin a1.2 "user2@example.com" "pw2"
     a2.2.liveClients = 1 ∧ a2.2.closedIds = [0] ∧
       SessionManager.get_client a2.2 = .ok ⟨1, "tokB", "https://app.joinblok.co"⟩ ∧
       a2.2.session.map SessionState.access_token = some "tokB") := by
  constructor
  · exact ⟨by decide, by decide, by decide⟩
  · exact ⟨by decide, by decide, rfl, by decide⟩

/-- Counterexample to C2 as stated: from an authenticated starting state, a
failed authentication does not leave the manager UNAUTHENTICATED — the old
session stays installed (async variant; the sync variant even keeps the old
client). -/
theorem failed_auth_keeps_existing_session :
    (SessionManager.authenticate_async demoSignin authedSM "bad@example.com" "wrong").1 =
      .error ⟨"Invalid email or password"⟩ ∧
    SessionManager.is_authenticated
      (SessionManager.authenticate_async demoSignin authedSM "bad@example.com" "wrong").2 = true ∧
    (SessionManager.authenticate demoSignin authedSM "bad@example.com" "wrong").2 = authedSM ∧
    SessionManager.is_authenticated authedSM = true := by
  refine ⟨rfl, by decide, by decide, by decide⟩

/-- C2 (amended): for every UNAUTHENTICATED starting state and every
credential pair the authenticator rejects, both authenticate variants leave
the manager UNAUTHENTICATED (no session, no client) and propagate the
AuthenticationError; moreover, from any starting state a failed
authentication never installs a new session. -/
theorem failed_auth_leaves_unauthenticated (signin : SigninOracle) (st : SMState)
    (email password : String) (e : AuthErr)
    (hrej : BlokAuthenticator.authenticate signin email password = .error e)
    (_hs : st.session = none) (hc : st.client = none) :
    SessionManager.authenticate_async signin st email password = (.error e, st) ∧
    SessionManager.authenticate signin st email password = (.error e, st) ∧
    (∀ st2 : SMState,
      (SessionManager.authenticate_async signin st2 email password).2.session = st2.session ∧
      (SessionManager.authenticate signin st2 email password).2 = st2) := by
  have hcc : SessionManager.clear_client st = st := by
    unfold SessionManager.clear_client
    rw [hc]
  refine ⟨?_, ?_, ?_⟩
  · unfold SessionManager.authenticate_async
    rw [hcc, hrej]
  · unfold SessionManager.authenticate
    rw [hrej]
  · intro st2
    constructor
    · unfold SessionManager.authenticate_async
      rw [hrej]
      unfold SessionManager.clear_client
      cases h2 : st2.client <;> simp
    · unfold SessionManager.authenticate
      rw [hrej]

/-- Witness for C2 (amended): a rejected pair on a fresh manager leaves it
unauthenticated with the error propagated. -/
theorem failed_auth_leaves_unauthenticated_witness :
    BlokAuthenticator.authenticate demoSignin "bad@example.com" "wrong" =
      .error ⟨"Invalid email or password"⟩ ∧
    freshSM.session = none ∧ freshSM.client = none ∧
    SessionManager.authenticate_async demoSignin freshSM "bad@example.com" "wrong" =
      (.error ⟨"Invalid email or password"⟩, freshSM) :=
  ⟨rfl, rfl, rfl,
   (failed_auth_leaves_unauthenticated demoSignin freshSM "bad@example.com" "wrong"
     ⟨"Invalid email or password"⟩ rfl rfl rfl).1⟩

/-- With no session and no credential arguments, `_ensure_authenticated`
returns False without touching state or issuing requests. -/
theorem ensure_unauth_no_creds (args : List (String × JVal)) (c : Ctx) (s : ServerState)
    (tr : List Eff) (hsess : s.sm.session = none)
    (he : alookup args "email" = none) (hp : alookup args "password" = none) :
    BlokMCPServer.ensure_authenticated args c s tr = (.ok false, s, tr) := by
  unfold BlokMCPServer.ensure_authenticated
  simp [M_bind_eq, M_pure_eq, getSM, SessionManager.is_authenticated, hsess, he, hp, optTruthy]

/-- Unauthenticated `whoami` without credentials. -/
theorem whoami_unauth (args : List (String × JVal)) (c : Ctx) (s : ServerState)
    (tr : List Eff)
    (he : alookup args "email" = none) (hp : alookup args "password" = none) :
    BlokMCPServer.whoami args c s tr =
      (.ok [⟨"Error: Both email and password are required"⟩], s, tr) := by
  unfold BlokMCPServer.whoami
  simp [M_bind_eq, M_pure_eq, he, hp, optTruthy]

/-- Unauthenticated `list_personas` without credentials. -/
theorem list_personas_unauth (args : List (String × JVal)) (c : Ctx) (s : ServerState)
    (tr : List Eff) (hsess : s.sm.session = none)
    (he : alookup args "email" = none) (hp : alookup args "password" = none) :
    BlokMCPServer.list_personas args c s tr = (.ok [⟨notAuthText⟩], s, tr) := by
  unfold BlokMCPServer.list_personas catching catchingWith
  simp [M_bind_eq, ensure_unauth_no_creds args c s tr hsess he hp, M_pure_eq]

/-- Unauthenticated `list_experiment_types` without credentials. -/
theorem list_experiment_types_unauth (args : List (String × JVal)) (c : Ctx)
    (s : ServerState) (tr : List Eff) (hsess : s.sm.session = none)
    (he : alookup args "email" = none) (hp : alookup args "password" = none) :
    BlokMCPServer.list_experiment_types args c s tr = (.ok [⟨notAuthText⟩], s, tr) := by
  unfold BlokMCPServer.list_experiment_types catching catchingWith
  simp [M_bind_eq, ensure_unauth_no_creds args c s tr hsess he hp, M_pure_eq]

/-- Unauthenticated `start_experiment` without credentials. -/
theorem start_experiment_unauth (args : List (String × JVal)) (c : Ctx) (s : ServerState)
    (tr : List Eff) (hsess : s.sm.session = none)
    (he : alookup args "email" = none) (hp : alookup args "password" = none) :
    BlokMCPServer.start_experiment args c s tr = (.ok [⟨notAuthText⟩], s, tr) := by
  unfold BlokMCPServer.start_experiment catching catchingWith
  simp [M_bind_eq, ensure_unauth_no_creds args c s tr hsess he hp, M_pure_eq]

/-- Unauthenticated `create_experiment_from_description` without credentials. -/
theorem create_experiment_unauth (args : List (String × JVal)) (c : Ctx) (s : ServerState)
    (tr : List Eff) (hsess : s.sm.session = none)
    (he : alookup args "email" = none) (hp : alookup args "password" = none) :
    BlokMCPServer.create_experiment_from_description args c s tr =
      (.ok [⟨"Error: Not authenticated. Provide email/password or call whoami first."⟩],
       s, tr) := by
  unfold BlokMCPServer.create_experiment_from_description catching catchingWith
  simp [M_bind_eq, ensure_unauth_no_creds args c s tr hsess he hp, M_pure_eq]

/-- Unauthenticated `list_experiments` without credentials. -/
theorem list_experiments_unauth (args : List (String × JVal)) (c : Ctx) (s : ServerState)
    (tr : List Eff) (hsess : s.sm.session = none)
    (he : alookup args "email" = none) (hp : alookup args "password" = none) :
    BlokMCPServer.list_experiments args c s tr = (.ok [⟨notAuthText⟩], s, tr) := by
  unfold BlokMCPServer.list_experiments catching catchingWith
  simp [M_bind_eq, ensure_unauth_no_creds args c s tr hsess he hp, M_pure_eq]

/-- Unauthenticated `get_experiment_results` without credentials. -/
theorem get_experiment_results_unauth (args : List (String × JVal)) (c : Ctx)
    (s : ServerState) (tr : List Eff) (hsess : s.sm.session = none)
    (he : alookup args "email" = none) (hp : alookup args "password" = none) :
    BlokMCPServer.get_experiment_results args c s tr = (.ok [⟨notAuthText⟩], s, tr) := by
  unfold BlokMCPServer.get_experiment_results catching catchingWith
  rw [M_bind_eq, ensure_unauth_no_creds args c s tr hsess he hp]
  rfl

/-- Counterexample to C6 as stated: `get_ngrok_status`, called with no
session and no credentials, returns an ordinary status block — not a
not-authenticated error block — because the tunnel tools do not consult the
authentication state. -/
theorem ngrok_status_needs_no_session :
    freshSrv.sm.session = none ∧
    alookup [] "email" = none ∧ alookup [] "password" = none ∧
    BlokMCPServer.call_tool "get_ngrok_status" [] demoCtx freshSrv [] =
      (.ok [⟨"No active ngrok tunnels.\n\nUse start_ngrok to create one."⟩],
       freshSrv, []) ∧
    strStartsWith "No active ngrok tunnels.\n\nUse start_ngrok to create one." "Error" =
      false ∧
    "No active ngrok tunnels.\n\nUse start_ngrok to create one." ≠ notAuthText :=
  ⟨rfl, rfl, rfl, rfl, by decide, by decide⟩

/-- C6 (amended): for every call to one of the seven authentication-consuming
tools with no email/password in the arguments while the session manager holds
no session, the dispatcher returns a single error content block (the
not-authenticated message; for `whoami` and `create_experiment_from_description`
their specific variants) with the state unchanged and zero backend requests or
tunnel operations issued; the three tunnel tools are exempt and proceed
without a session. -/
theorem unauthenticated_calls_blocked (name : String) (args : List (String × JVal))
    (c : Ctx) (s : ServerState) (tr : List Eff)
    (hname : name ∈ ["whoami", "list_personas", "list_experiment_types",
      "start_experiment", "create_experiment_from_description", "list_experiments",
      "get_experiment_results"])
    (hsess : s.sm.session = none)
    (he : alookup args "email" = none) (hp : alookup args "password" = none) :
    BlokMCPServer.call_tool name args c s tr =
      (.ok [⟨expectedNoAuthMsg name⟩], s, tr) ∧
    strStartsWith (expectedNoAuthMsg name) "Error" = true := by
  simp only [List.mem_cons, List.not_mem_nil, or_false] at hname
  rcases hname with rfl | rfl | rfl | rfl | rfl | rfl | rfl
  · exact ⟨whoami_unauth args c s tr he hp, by decide⟩
  · exact ⟨list_personas_unauth args c s tr hsess he hp, by decide⟩
  · exact ⟨list_experiment_types_unauth args c s tr hsess he hp, by decide⟩
  · exact ⟨start_experiment_unauth args c s tr hsess he hp, by decide⟩
  · exact ⟨create_experiment_unauth args c s tr hsess he hp, by decide⟩
  · exact ⟨list_experiments_unauth args c s tr hsess he hp, by decide⟩
  · exact ⟨get_experiment_results_unauth args c s tr hsess he hp, by decide⟩

/-- Witness for C6 (amended): `list_personas` on a fresh server with empty
arguments returns the not-authenticated block with an empty request trace. -/
theorem unauthenticated_calls_blocked_witness :
    BlokMCPServer.call_tool "list_personas" [] demoCtx freshSrv [] =
      (.ok [⟨expectedNoAuthMsg "list_personas"⟩], freshSrv, []) :=
  (unauthenticated_calls_blocked "list_personas" [] demoCtx freshSrv []
    (by decide) rfl rfl rfl).1

/-- Lifting a successful pure computation does nothing but return. -/
theorem liftPy_ok {α : Type} (a : α) (c : Ctx) (s : ServerState) (t : List Eff) :
    liftPy (.ok a) c s t = (.ok a, s, t) := rfl

/-- With a stored session, `_ensure_authenticated` returns True immediately,
with no state change and no requests. -/
theorem ensure_with_session (args : List (String × JVal)) (c : Ctx) (s : ServerState)
    (tr : List Eff) (sess : SessionState) (hsess : s.sm.session = some sess) :
    BlokMCPServer.ensure_authenticated args c s tr = (.ok true, s, tr) := by
  unfold BlokMCPServer.ensure_authenticated
  simp [M_bind_eq, M_pure_eq, getSM, SessionManager.is_authenticated, hsess]

/-- Counterexample to C7 as stated: an unauthenticated, credential-free
`start_experiment` call with an empty hypothesis returns the
not-authenticated block, not the validation-error block (the authentication
guard runs before validation). -/
theorem start_experiment_guard_precedes_validation :
    BlokMCPServer.start_experiment
      [("hypothesis", .s ""), ("goal", .s "g"), ("url", .s "u"),
       ("persona_ids", .arr [.s "p1"])] demoCtx freshSrv [] =
      (.ok [⟨notAuthText⟩], freshSrv, []) ∧
    notAuthText ≠ "Error: hypothesis is required" :=
  ⟨start_experiment_unauth
    [("hypothesis", .s ""), ("goal", .s "g"), ("url", .s "u"),
     ("persona_ids", .arr [.s "p1"])] demoCtx freshSrv [] rfl rfl rfl,
   by decide⟩

set_option maxHeartbeats 1600000 in
/-- C7 (amended): for every `start_experiment` invocation made while a
session and client are installed (whose string arguments extract without a
type error), an empty or whitespace-only hypothesis yields the
hypothesis-validation error block with no backend request and no state
change; likewise for empty goal, empty url, and an empty (or absent)
persona_ids list, in that order of precedence. -/
theorem start_experiment_validation_errors (args : List (String × JVal)) (c : Ctx)
    (s : ServerState) (tr : List Eff) (sess : SessionState) (cl : BlokAPIClient)
    (hsess : s.sm.session = some sess) (hcl : s.sm.client = some cl) :
    (∀ g u, argStrip args "hypothesis" = .ok "" → argStrip args "goal" = .ok g →
      argStrip args "url" = .ok u →
      BlokMCPServer.start_experiment args c s tr =
        (.ok [⟨"Error: hypothesis is required"⟩], s, tr)) ∧
    (∀ h u, argStrip args "hypothesis" = .ok h → h ≠ "" →
      argStrip args "goal" = .ok "" → argStrip args "url" = .ok u →
      BlokMCPServer.start_experiment args c s tr =
        (.ok [⟨"Error: goal is required"⟩], s, tr)) ∧
    (∀ h g, argStrip args "hypothesis" = .ok h → h ≠ "" →
      argStrip args "goal" = .ok g → g ≠ "" →
      argStrip args "url" = .ok "" →
      BlokMCPServer.start_experiment args c s tr =
        (.ok [⟨"Error: url is required"⟩], s, tr)) ∧
    (∀ h g u, argStrip args "hypothesis" = .ok h → h ≠ "" →
      argStrip args "goal" = .ok g → g ≠ "" →
      argStrip args "url" = .ok u → u ≠ "" →
      argGetD args "persona_ids" (.arr []) = .arr [] →
      BlokMCPServer.start_experiment args c s tr =
        (.ok [⟨"Error: At least one persona_id is required"⟩], s, tr)) := by
  refine ⟨?_, ?_, ?_, ?_⟩
  · intro g u hhyp hg hu
    unfold BlokMCPServer.start_experiment catching catchingWith
    rw [M_bind_eq, ensure_with_session args c s tr sess hsess]
    simp [M_bind_eq, M_pure_eq, getSM, SessionManager.get_client, hsess, hcl,
      hhyp, hg, hu, liftPy_ok]
  · intro h u hhyp hne hg hu
    unfold BlokMCPServer.start_experiment catching catchingWith
    rw [M_bind_eq, ensure_with_session args c s tr sess hsess]
    simp [M_bind_eq, M_pure_eq, getSM, SessionManager.get_client, hsess, hcl,
      hhyp, hne, hg, hu, liftPy_ok]
  · intro h g hhyp hne hg hgne hu
    unfold BlokMCPServer.start_experiment catching catchingWith
    rw [M_bind_eq, ensure_with_session args c s tr sess hsess]
    simp [M_bind_eq, M_pure_eq, getSM, SessionManager.get_client, hsess, hcl,
      hhyp, hne, hg, hgne, hu, liftPy_ok]
  · intro h g u hhyp hne hg hgne hu hune hpids
    unfold BlokMCPServer.start_experiment catching catchingWith
    rw [M_bind_eq, ensure_with_session args c s tr sess hsess]
    simp [M_bind_eq, M_pure_eq, getSM, SessionManager.get_client, hsess, hcl,
      hhyp, hne, hg, hgne, hu, hune, hpids, liftPy_ok, JVal.truthy]

/-- Witness for C7 (amended): a whitespace-only hypothesis on an
authenticated server yields the validation error. -/
theorem start_experiment_validation_errors_witness :
    BlokMCPServer.start_experiment
      [("hypothesis", .s " "), ("goal", .s "g"), ("url", .s "u"),
       ("persona_ids", .arr [.s "p1"])] demoCtx authedSrv [] =
      (.ok [⟨"Error: hypothesis is required"⟩], authedSrv, []) :=
  (start_experiment_validation_errors
    [("hypothesis", .s " "), ("goal", .s "g"), ("url", .s "u"),
     ("persona_ids", .arr [.s "p1"])] demoCtx authedSrv []
    ⟨"tok123", "", "", "", ""⟩ ⟨0, "tok123", "https://app.joinblok.co"⟩
    rfl rfl).1 "g" "u" rfl rfl rfl

/-- Appending a binding for a key that is absent makes it found. -/
theorem lookupStr_append (l : List (String × Tunnel)) (k : String) (t : Tunnel)
    (h : lookupStr l k = none) : lookupStr (l ++ [(k, t)]) k = some t := by
  induction l with
  | nil => simp [lookupStr]
  | cons x xs ih =>
    unfold lookupStr at h ⊢
    by_cases hx : x.1 = k
    · simp [List.find?, hx] at h
    · simp only [List.cons_append, List.find?] at h ⊢
      simp only [hx, decide_False] at h ⊢
      exact ih h

/-- A `start_ngrok` call on a port that already has a registry entry returns
the existing tunnel info, opens nothing, and leaves state and trace as they
were. -/
theorem ngrok_existing (args : List (String × JVal)) (c : Ctx) (s : ServerState)
    (tr : List Eff) (p : Int) (tun : Tunnel)
    (hport : alookup args "port" = some (.i p))
    (hlo : 1 ≤ p) (hhi : p ≤ 65535)
    (hexist : lookupStr s.ngrok_tunnels (toString p) = some tun) :
    BlokMCPServer.start_ngrok args c s tr =
      (.ok [⟨"Tunnel already exists for port " ++ toString p ++
        "\n\nPublic URL: " ++ tun.public_url ++
        "\n\nUse stop_ngrok to close it first if you want to restart."⟩], s, tr) := by
  have hp0 : p ≠ 0 := by omega
  have h1 : ¬(p < 1) := by omega
  have h2 : ¬(p > 65535) := by omega
  unfold BlokMCPServer.start_ngrok catchingWith
  simp [M_bind_eq, M_pure_eq, getTunnels, hport, hexist, optTruthy, JVal.truthy,
    hp0, h1, h2]

/-- A `start_ngrok` call on a free port (default protocol) opens one tunnel,
registers it under the port string, and reports its public URL. -/
theorem ngrok_fresh (args : List (String × JVal)) (c : Ctx) (s : ServerState)
    (tr : List Eff) (p : Int)
    (hport : alookup args "port" = some (.i p))
    (hlo : 1 ≤ p) (hhi : p ≤ 65535)
    (hproto : alookup args "protocol" = none)
    (hnone : lookupStr s.ngrok_tunnels (toString p) = none) :
    BlokMCPServer.start_ngrok args c s tr =
      (.ok [⟨"ngrok tunnel started successfully!\n\nPort: " ++ toString p ++
        "\nProtocol: " ++ "http" ++ "\nPublic URL: " ++ (c.connect p "http").public_url ++
        "\n\nUse this URL in your experiments. The tunnel will remain active " ++
        "until you call stop_ngrok.\n\nExample usage:\nstart_experiment(url=\"" ++
        (c.connect p "http").public_url ++ "\", ...)"⟩],
       { s with ngrok_tunnels := s.ngrok_tunnels ++ [(toString p, c.connect p "http")] },
       tr ++ [.connect p "http"]) := by
  have hp0 : p ≠ 0 := by omega
  have h1 : ¬(p < 1) := by omega
  have h2 : ¬(p > 65535) := by omega
  unfold BlokMCPServer.start_ngrok catchingWith
  simp [M_bind_eq, M_pure_eq, getTunnels, setTunnels, emit, askCtx, hport, hnone,
    hproto, optTruthy, JVal.truthy, hp0, h1, h2, argGetD, JVal.pyStr, JVal.pyRepr]

/-- C8: the tunnel registry holds at most one tunnel per port: a second
`start_ngrok` on a port with an existing entry returns that entry's public
URL, opens no tunnel, and leaves registry, state and trace unchanged; hence
opening twice on the same port reports the first tunnel's public URL both
times, with exactly one registry entry created and one tunnel opened. -/
theorem ngrok_one_tunnel_per_port (args : List (String × JVal)) (c : Ctx)
    (s : ServerState) (tr tr2 : List Eff) (p : Int)
    (hport : alookup args "port" = some (.i p))
    (hlo : 1 ≤ p) (hhi : p ≤ 65535) :
    (∀ tun, lookupStr s.ngrok_tunnels (toString p) = some tun →
      BlokMCPServer.start_ngrok args c s tr =
        (.ok [⟨"Tunnel already exists for port " ++ toString p ++
          "\n\nPublic URL: " ++ tun.public_url ++
          "\n\nUse stop_ngrok to close it first if you want to restart."⟩], s, tr)) ∧
    (lookupStr s.ngrok_tunnels (toString p) = none →
      alookup args "protocol" = none →
      BlokMCPServer.start_ngrok args c s tr =
        (.ok [⟨"ngrok tunnel started successfully!\n\nPort: " ++ toString p ++
          "\nProtocol: " ++ "http" ++ "\nPublic URL: " ++
          (c.connect p "http").public_url ++
          "\n\nUse this URL in your experiments. The tunnel will remain active " ++
          "until you call stop_ngrok.\n\nExample usage:\nstart_experiment(url=\"" ++
          (c.connect p "http").public_url ++ "\", ...)"⟩],
         { s with ngrok_tunnels :=
             s.ngrok_tunnels ++ [(toString p, c.connect p "http")] },
         tr ++ [.connect p "http"]) ∧
      BlokMCPServer.start_ngrok args c
          { s with ngrok_tunnels :=
              s.ngrok_tunnels ++ [(toString p, c.connect p "http")] } tr2 =
        (.ok [⟨"Tunnel already exists for port " ++ toString p ++
          "\n\nPublic URL: " ++ (c.connect p "http").public_url ++
          "\n\nUse stop_ngrok to close it first if you want to restart."⟩],
         { s with ngrok_tunnels :=
             s.ngrok_tunnels ++ [(toString p, c.connect p "http")] },
         tr2)) := by
  refine ⟨fun tun hexist => ngrok_existing args c s tr p tun hport hlo hhi hexist,
    fun hnone hproto => ⟨ngrok_fresh args c s tr p hport hlo hhi hproto hnone, ?_⟩⟩
  exact ngrok_existing args c
    { s with ngrok_tunnels := s.ngrok_tunnels ++ [(toString p, c.connect p "http")] }
    tr2 p (c.connect p "http") hport hlo hhi
    (lookupStr_append s.ngrok_tunnels (toString p) (c.connect p "http") hnone)

/-- Witness for C8: opening port 3000 twice on a fresh server reports the
same public URL both times and leaves one registry entry. -/
theorem ngrok_one_tunnel_per_port_witness :
    BlokMCPServer.start_ngrok [("port", .i 3000)] demoCtx
        ⟨freshSM, [("3000", ⟨"https://tun3000.ngrok.app", "http"⟩)]⟩ [] =
      (.ok [⟨"Tunnel already exists for port " ++ toString (3000 : Int) ++
        "\n\nPublic URL: " ++ ("https://tun3000.ngrok.app" : String) ++
        "\n\nUse stop_ngrok to close it first if you want to restart."⟩],
       ⟨freshSM, [("3000", ⟨"https://tun3000.ngrok.app", "http"⟩)]⟩, []) :=
  (ngrok_one_tunnel_per_port [("port", .i 3000)] demoCtx
    ⟨freshSM, [("3000", ⟨"https://tun3000.ngrok.app", "http"⟩)]⟩ [] [] 3000
    rfl (by decide) (by decide)).1 ⟨"https://tun3000.ngrok.app", "http"⟩ rfl

set_option maxRecDepth 4000 in
/-- C9: experiment URLs lacking an http/https scheme are normalized to
`https://` plus the input, and the estimated runtime is
`round(5 + 7.2 * (0.5 + n))` minutes — 16 for one persona; in the
specification scenario (one persona `p1`, suggestion endpoint consulted,
experiment `e1` created and run successfully from `url="example.com"`), the
created experiment's payload carries `https://example.com`, the request
sequence is personas, types, suggest, create, run, and the success message
reports `https://example.com` and 16 minutes. -/
theorem start_experiment_scenario :
    (∀ u : String, strStartsWith u "http://" = false →
      strStartsWith u "https://" = false →
      normalizeExpUrl u = "https://" ++ u) ∧
    estimatedMinutes 1 = 16 ∧
    (BlokMCPServer.start_experiment scenarioArgs demoCtx authedSrv []).2.1 = authedSrv ∧
    ((BlokMCPServer.start_experiment scenarioArgs demoCtx authedSrv []).2.2).map effUrl =
      ["https://app.joinblok.co/api/v1/personas",
       "https://app.joinblok.co/api/v1/experiments/types",
       "https://app.joinblok.co/api/v1/experiments/types/suggest",
       "https://app.joinblok.co/api/v1/experiments",
       "https://app.joinblok.co/api/v1/experiments/e1/run"] ∧
    (∃ body, findCreateBody
        ((BlokMCPServer.start_experiment scenarioArgs demoCtx authedSrv []).2.2) =
          some body ∧
      pyGetD body "url" .null = .ok (.s "https://example.com")) ∧
    (BlokMCPServer.start_experiment scenarioArgs demoCtx authedSrv []).1 =
      .ok [⟨"Experiment created and started successfully!\n\nExperiment ID: e1\nTitle: Onboarding Check\nURL: https://example.com\nPersonas: 1\nEstimated Runtime: 16 minutes\n\nStatus: Running\n\nThe experiment is now running in the background. You can check results later using:\nget_experiment_results(experiment_id=\"e1\")\n\nOr view it in the web interface at:\nhttps://app.joinblok.co/experiments/e1"⟩] ∧
    strContains "Experiment created and started successfully!\n\nExperiment ID: e1\nTitle: Onboarding Check\nURL: https://example.com\nPersonas: 1\nEstimated Runtime: 16 minutes\n\nStatus: Running\n\nThe experiment is now running in the background. You can check results later using:\nget_experiment_results(experiment_id=\"e1\")\n\nOr view it in the web interface at:\nhttps://app.joinblok.co/experiments/e1"
      "https://example.com" = true ∧
    strContains "Experiment created and started successfully!\n\nExperiment ID: e1\nTitle: Onboarding Check\nURL: https://example.com\nPersonas: 1\nEstimated Runtime: 16 minutes\n\nStatus: Running\n\nThe experiment is now running in the background. You can check results later using:\nget_experiment_results(experiment_id=\"e1\")\n\nOr view it in the web interface at:\nhttps://app.joinblok.co/experiments/e1"
      "Estimated Runtime: 16 minutes" = true := by
  refine ⟨?_, rfl, ?_, ?_, ⟨?_, ?_, ?_⟩, ?_, ?_, ?_⟩
  · intro u h1 h2
    unfold normalizeExpUrl
    simp [h1, h2]
  · decide
  · decide
  · exact .obj [("title", .s "Onboarding Check"), ("hypothesis", .s "h"),
      ("goal", .s "g"), ("url", .s "https://example.com"),
      ("experiment_type_id", .s "t1"), ("persona_ids", .arr [.s "p1"]),
      ("frame_type", .s "Desktop"), ("status", .s "Draft"), ("credentials", .null)]
  · rfl
  · rfl
  · rfl
  · decide
  · decide

/-- Witness for C9: `example.com` has no scheme and normalizes to
`https://example.com`. -/
theorem start_experiment_scenario_witness :
    strStartsWith "example.com" "http://" = false ∧
    strStartsWith "example.com" "https://" = false ∧
    normalizeExpUrl "example.com" = "https://" ++ "example.com" :=
  ⟨by decide, by decide,
   start_experiment_scenario.1 "example.com" (by decide) (by decide)⟩
